import Mathlib

/-!
Verification of the CI-provider metadata resolution engine of the
buildpulse test-reporter (package `internal/metadata`).

The Go sources are shallowly embedded: each provider's `Init` becomes a
function from an environment map to `Except String <provider record>`,
the aggregator `NewMetadata` becomes a function producing an
`Except String Metadata`, and the YAML serializer becomes a function from
field lists to strings.  Machine integers (`uint`, `uint64`) are modelled
as `Nat` with their Go ranges checked where the Go code checks them
(`strconv.ParseUint` range errors).
-/

deriving instance DecidableEq for Except

namespace BuildPulse

/-- A process-environment map (`map[string]string` in Go).  Keys are unique
in a Go map; here lookup takes the first matching entry, so consing a pair
onto the front overrides an existing key. -/
abbrev Env := List (String × String)

/-- Go map read `envs[k]` together with the `ok` flag: `some v` when the key
is present, `none` otherwise. -/
def envGet? : Env → String → Option String
  | [], _ => none
  | (k, v) :: rest, key => if k = key then some v else envGet? rest key

/-- Go map read `envs[k]` without the `ok` flag: a missing key yields `""`. -/
def envGetD (e : Env) (k : String) : String := (envGet? e k).getD ""

/-- Go `strings.TrimPrefix`'s prefix test / `regexp.MatchString "^pat"` for a
literal pattern: does `s` start with `pre`? -/
def goHasLeading (s pre : String) : Bool := pre.toList.isPrefixOf s.toList

/-- Go `strings.TrimPrefix s pre`: drop `pre` from the front of `s` when
present, otherwise return `s` unchanged. -/
def goTrimLeading (s pre : String) : String :=
  if goHasLeading s pre then String.mk (s.toList.drop pre.toList.length) else s

/-- Go `strings.TrimSuffix s suf`: drop `suf` from the end of `s` when
present, otherwise return `s` unchanged. -/
def goTrimTrailing (s suf : String) : String :=
  if suf.toList.isSuffixOf s.toList
  then String.mk (s.toList.take (s.toList.length - suf.toList.length))
  else s

/-- Go `strconv`'s `lower` on the byte values compared against letter ranges:
ASCII upper-case letters are mapped to lower case.  (Go computes `c | 0x20`
on bytes; for every comparison performed by `ParseUint`/`underscoreOK` the
two definitions agree.) -/
def lowerChar (c : Char) : Char :=
  if 'A' ≤ c ∧ c ≤ 'Z' then Char.ofNat (c.toNat + 32) else c

/-- The value of a digit character as used by `strconv.ParseUint`
(`0`-`9`, then letters from 10 up); `none` for a non-digit byte. -/
def digitVal (c : Char) : Option Nat :=
  if '0' ≤ c ∧ c ≤ '9' then some (c.toNat - '0'.toNat)
  else if 'a' ≤ lowerChar c ∧ lowerChar c ≤ 'z' then
    some ((lowerChar c).toNat - 'a'.toNat + 10)
  else none

/-- Maximum value of Go's 32-bit `uint` parse (`strconv.ParseUint _ 10 32`,
used by the `env` library for `uint` struct fields). -/
def uint32Max : Nat := 2 ^ 32 - 1

/-- Maximum value of Go's `uint64`. -/
def uint64Max : Nat := 2 ^ 64 - 1

/-- Digit-accumulation loop of `strconv.ParseUint`: consume the digit
characters in `l` in base `base`, skipping underscores (legal only when the
caller passed base 0, as `ParseUint(s, 0, 0)` does); returns the accumulated
value and whether an underscore was seen, or `none` on a non-digit or a
digit `≥ base`.  The value is accumulated in `Nat`; the Go cutoff (range)
check is applied by the caller, which is equivalent for the purpose of
distinguishing a nil error from a non-nil one. -/
def goDigits (base : Nat) (allowUnderscore : Bool) :
    List Char → Nat → Bool → Option (Nat × Bool)
  | [], n, u => some (n, u)
  | c :: cs, n, u =>
    if c = '_' ∧ allowUnderscore then goDigits base allowUnderscore cs n true
    else match digitVal c with
      | none => none
      | some d =>
        if d ≥ base then none else goDigits base allowUnderscore cs (n * base + d) u

/-- Loop of Go `strconv.underscoreOK`: `saw` tracks the previous character
class (`'0'` digit, `'_'` underscore, `'!'` other, `'^'` beginning). -/
def underscoreLoop (hex : Bool) : List Char → Char → Bool
  | [], saw => saw ≠ '_'
  | c :: cs, saw =>
    if ('0' ≤ c ∧ c ≤ '9') ∨ (hex ∧ 'a' ≤ lowerChar c ∧ lowerChar c ≤ 'f') then
      underscoreLoop hex cs '0'
    else if c = '_' then
      if saw ≠ '0' then false else underscoreLoop hex cs '_'
    else if saw = '_' then false
    else underscoreLoop hex cs '!'

/-- Go `strconv.underscoreOK s`: underscores may appear only between digits
or between a base prefix and a digit. -/
def underscoreOK (l : List Char) : Bool :=
  let l := match l with
    | c :: cs => if c = '-' ∨ c = '+' then cs else c :: cs
    | [] => []
  match l with
  | c0 :: c1 :: rest =>
    if c0 = '0' ∧ (lowerChar c1 = 'x' ∨ lowerChar c1 = 'o' ∨ lowerChar c1 = 'b') then
      underscoreLoop (lowerChar c1 = 'x') rest '0'
    else underscoreLoop false (c0 :: c1 :: rest) '^'
  | _ => underscoreLoop false l '^'

/-- Go `strconv.ParseUint(s, 0, 0)` (base auto-detected from a `0b`/`0o`/`0x`
or leading-zero prefix, 64-bit size), as used for pull-request-number
strings: `some n` exactly when Go returns a nil error, `none` for every
syntax or range error. -/
def goParseUint0 (s : String) : Option Nat :=
  match s.toList with
  | [] => none
  | c0 :: rest =>
    let p : Nat × List Char :=
      if c0 = '0' then
        match rest with
        | [] => (8, [])
        | c1 :: rest2 =>
          if (lowerChar c1 = 'b') ∧ rest2 ≠ [] then (2, rest2)
          else if (lowerChar c1 = 'o') ∧ rest2 ≠ [] then (8, rest2)
          else if (lowerChar c1 = 'x') ∧ rest2 ≠ [] then (16, rest2)
          else (8, rest)
      else (10, c0 :: rest)
    match goDigits p.1 true p.2 0 false with
    | none => none
    | some (n, u) =>
      if n > uint64Max then none
      else if u ∧ ¬ underscoreOK s.toList then none
      else some n

/-- Go `strconv.ParseUint(s, 10, bits)` as invoked by the `env` library for
`uint`/`uint64` struct fields: plain decimal digits, no underscores, value
at most `maxVal`. -/
def goParseUint10 (s : String) (maxVal : Nat) : Option Nat :=
  match goDigits 10 false s.toList 0 false with
  | none => none
  | some (n, _) => if s.toList.isEmpty then none else if n > maxVal then none else some n

/-- Go `strconv.ParseBool`. -/
def goParseBool (s : String) : Option Bool :=
  if s = "1" ∨ s = "t" ∨ s = "T" ∨ s = "TRUE" ∨ s = "true" ∨ s = "True" then some true
  else if s = "0" ∨ s = "f" ∨ s = "F" ∨ s = "FALSE" ∨ s = "false" ∨ s = "False" then some false
  else none

/-- Join a list of strings with a separator (Go `strings.Join`). -/
def joinSep (sep : String) : List String → String
  | [] => ""
  | [s] => s
  | s :: rest => s ++ sep ++ joinSep sep rest

/-! ### The `env` library (`github.com/caarlos0/env/v6`)

Every provider's `Init` starts with `env.Parse(&struct, env.Options{...})`,
which binds each struct field from the environment variable named in its
`env:"..."` tag.  Modelled from the library's behaviour as pinned down by
this repository's tests: an unset or empty variable leaves a field at its
zero value (except under the `notEmpty` option, which records the error
`environment variable "K" should not be empty`); a non-empty value for a
numeric or boolean field is parsed with `strconv` and a parse failure
records an error; all field errors are aggregated in struct-field order
into one message `env: ` + errors joined with `"; "`. -/

/-- The reason string `strconv.ParseUint` puts in its error. -/
def strconvUintReason (v : String) (maxVal : Nat) : String :=
  match goParseUint10 v maxVal with
  | some _ => ""
  | none =>
    match goDigits 10 false v.toList 0 false with
    | some _ => if v.isEmpty then "invalid syntax" else "value out of range"
    | none => "invalid syntax"

/-- Error recorded by the `env` library for a `uint`/`uint64` field whose
variable is set to a non-empty value that fails `strconv.ParseUint`. -/
def uintFieldError (envs : Env) (field key ty : String) (maxVal : Nat) : Option String :=
  let v := envGetD envs key
  if v = "" then none
  else match goParseUint10 v maxVal with
    | some _ => none
    | none => some ("parse error on field \"" ++ field ++ "\" of type \"" ++ ty ++
        "\": strconv.ParseUint: parsing \"" ++ v ++ "\": " ++ strconvUintReason v maxVal)

/-- Error recorded by the `env` library for a `bool` field whose variable is
set to a non-empty value that fails `strconv.ParseBool`. -/
def boolFieldError (envs : Env) (field key : String) : Option String :=
  let v := envGetD envs key
  if v = "" then none
  else match goParseBool v with
    | some _ => none
    | none => some ("parse error on field \"" ++ field ++ "\" of type \"bool\"" ++
        ": strconv.ParseBool: parsing \"" ++ v ++ "\": invalid syntax")

/-- Error recorded by the `env` library for a string field tagged
`notEmpty` whose variable is unset or empty. -/
def notEmptyFieldError (envs : Env) (key : String) : Option String :=
  if envGetD envs key = "" then
    some ("environment variable \"" ++ key ++ "\" should not be empty")
  else none

/-- Aggregate a non-empty list of `env`-library field errors into the
message `env.Parse` returns. -/
def envAggregateError (errs : List String) : String := "env: " ++ joinSep "; " errs

/-- The value the `env` library leaves in a `uint`/`uint64` field: the
parsed value of the variable, or the zero value when the variable is unset
or empty (when the variable is set but unparsable, `env.Parse` reports an
error and the whole `Init` fails, so the value is irrelevant). -/
def envUintD (envs : Env) (key : String) (maxVal : Nat) : Nat :=
  (goParseUint10 (envGetD envs key) maxVal).getD 0

/-- The value the `env` library leaves in a `bool` field. -/
def envBoolD (envs : Env) (key : String) : Bool :=
  (goParseBool (envGetD envs key)).getD false

/-! ### `nameWithOwnerFromGitURL` (providers.go)

The Go function runs `regexp.MustCompile("github.com[:/](.*)") .
FindStringSubmatch(url)`.  The pattern is unanchored with an unescaped `.`
(any character) and a greedy trailing group, so a match at position `i`
requires the literal `github`, any one character, the literal `com`, and
one of `:` `/`; the submatch is everything after it.  `FindStringSubmatch`
takes the leftmost such position. -/

/-- Try to match `github.com[:/]` at the head of the character list,
returning the remainder captured by `(.*)`. -/
def matchGithubAt : List Char → Option (List Char)
  | 'g' :: 'i' :: 't' :: 'h' :: 'u' :: 'b' :: _ :: 'c' :: 'o' :: 'm' :: sep :: rest =>
    if sep = ':' ∨ sep = '/' then some rest else none
  | _ => none

/-- Leftmost match of `github.com[:/](.*)`: scan positions left to right. -/
def githubScan : List Char → Option (List Char)
  | [] => none
  | c :: cs =>
    match matchGithubAt (c :: cs) with
    | some rest => some rest
    | none => githubScan cs

/-- `nameWithOwnerFromGitURL` (providers.go:431-440): extract `owner/repo`
from a git remote URL, stripping a trailing `.git`; error (message naming
the URL) when the pattern finds no match. -/
def nameWithOwnerFromGitURL (url : String) : Except String String :=
  match githubScan url.toList with
  | some rest => .ok (goTrimTrailing (String.mk rest) ".git")
  | none => .error ("unable to extract repository name-with-owner from URL: " ++ url)

/-! ### `net/url` path extraction (for `awsCodeBuildMetadata.RepoNameWithOwner`)

Only the `Path` component of `url.Parse` is consumed by the Go code.  For a
URL of the form `scheme://host[/path]` the path is everything from the
first `/` after the authority (empty when there is none); a string without
`://` is treated as the path itself.  `url.Parse` can also fail outright
(control characters, malformed escapes); that case ends in `os.Exit(1)` in
the source just like the short-path panic, and both abort paths are
modelled as `none` in `awsRepoNameWithOwner` below. -/

/-- Drop everything through the first occurrence of `://`, or `none` when
the string has no such separator. -/
def dropThroughSchemeSep : List Char → Option (List Char)
  | ':' :: '/' :: '/' :: rest => some rest
  | _ :: cs => dropThroughSchemeSep cs
  | [] => none

/-- The `Path` component of Go `url.Parse` for the URL shapes reaching
`awsCodeBuildMetadata.RepoNameWithOwner`. -/
def goURLPath (s : String) : String :=
  match dropThroughSchemeSep s.toList with
  | none => s
  | some rest => String.mk (rest.dropWhile (· ≠ '/'))

/-- Go `strings.Split(s, sep)` for a one-character separator, over character
lists: split at every occurrence of `sep`; the empty input yields `[[]]`
(Go: `[""]`). -/
def splitOnChar (sep : Char) : List Char → List (List Char)
  | [] => [[]]
  | c :: cs =>
    if c = sep then [] :: splitOnChar sep cs
    else match splitOnChar sep cs with
      | h :: t => (c :: h) :: t
      | [] => [[c]]

/-- `awsCodeBuildMetadata.RepoNameWithOwner` (providers.go:549-562): parse
the public build URL, split its path on `/`, and read segments 1 and 2.
The Go code indexes `splits[1]` and `splits[2]` without a bounds check and
calls `os.Exit(1)` when `url.Parse` fails; both process-aborting paths are
modelled as `none`. -/
def awsRepoNameWithOwner (buildURL : String) : Option String :=
  let splits := splitOnChar '/' (goURLPath buildURL).toList
  if 2 < splits.length then
    some (String.mk (splits.getD 1 []) ++ "/" ++
      goTrimTrailing (String.mk (splits.getD 2 [])) ".git")
  else none

/-! ### Provider metadata records and their `Init` functions (providers.go)

Each record mirrors one provider struct, field for field and in declaration
order; `uint`/`uint64` fields become `Nat`, `bool` becomes `Bool`.  Each
`Init` mirrors the Go method: run the `env` library binding (aggregating
field errors in declaration order), then the provider-specific derivation
steps in source order.  Logging calls have no effect on the returned data
and are not modelled. -/

/-- `buildkiteMetadata` (providers.go:64-88). -/
structure BuildkiteMetadata where
  buildkiteBranch : String
  buildkiteBuildID : String
  buildkiteBuildNumber : Nat
  buildkiteBuildURL : String
  buildkiteCommit : String
  buildkiteJobID : String
  buildkiteLabel : String
  buildkiteOrganizationSlug : String
  buildkitePipelineID : String
  buildkitePipelineSlug : String
  buildkiteProjectSlug : String
  buildkitePullRequest : String
  buildkitePullRequestBaseBranch : String
  buildkitePullRequestNumber : Nat
  buildkitePullRequestRepo : String
  buildkiteRebuiltFromBuildID : String
  buildkiteRebuiltFromBuildNumber : Nat
  buildkiteRepoURL : String
  buildkiteRetryCount : Nat
  buildkiteTag : String
  nwo : String
  deriving Repr, DecidableEq, Inhabited

/-- The `env`-library field errors of `buildkiteMetadata.Init`, in
struct-field declaration order. -/
def buildkiteEnvErrors (envs : Env) : List String :=
  List.filterMap id
    [uintFieldError envs "BuildkiteBuildNumber" "BUILDKITE_BUILD_NUMBER" "uint64" uint64Max,
     uintFieldError envs "BuildkiteRebuiltFromBuildNumber" "BUILDKITE_REBUILT_FROM_BUILD_NUMBER" "uint64" uint64Max,
     uintFieldError envs "BuildkiteRetryCount" "BUILDKITE_RETRY_COUNT" "uint" uint32Max]

/-- `buildkiteMetadata.Init` (providers.go:90-109): `env.Parse`, then
name-with-owner extraction from `BUILDKITE_REPO` (error propagates), then
best-effort `ParseUint` of `BUILDKITE_PULL_REQUEST` whose failure is
ignored, leaving the number field at zero. -/
def buildkiteInit (envs : Env) : Except String BuildkiteMetadata :=
  if buildkiteEnvErrors envs ≠ [] then .error (envAggregateError (buildkiteEnvErrors envs))
  else match nameWithOwnerFromGitURL (envGetD envs "BUILDKITE_REPO") with
    | .error e => .error e
    | .ok nwo =>
      .ok { buildkiteBranch := envGetD envs "BUILDKITE_BRANCH"
            buildkiteBuildID := envGetD envs "BUILDKITE_BUILD_ID"
            buildkiteBuildNumber := envUintD envs "BUILDKITE_BUILD_NUMBER" uint64Max
            buildkiteBuildURL := envGetD envs "BUILDKITE_BUILD_URL"
            buildkiteCommit := envGetD envs "BUILDKITE_COMMIT"
            buildkiteJobID := envGetD envs "BUILDKITE_JOB_ID"
            buildkiteLabel := envGetD envs "BUILDKITE_LABEL"
            buildkiteOrganizationSlug := envGetD envs "BUILDKITE_ORGANIZATION_SLUG"
            buildkitePipelineID := envGetD envs "BUILDKITE_PIPELINE_ID"
            buildkitePipelineSlug := envGetD envs "BUILDKITE_PIPELINE_SLUG"
            buildkiteProjectSlug := envGetD envs "BUILDKITE_PROJECT_SLUG"
            buildkitePullRequest := envGetD envs "BUILDKITE_PULL_REQUEST"
            buildkitePullRequestBaseBranch := envGetD envs "BUILDKITE_PULL_REQUEST_BASE_BRANCH"
            buildkitePullRequestNumber :=
              (goParseUint0 (envGetD envs "BUILDKITE_PULL_REQUEST")).getD 0
            buildkitePullRequestRepo := envGetD envs "BUILDKITE_PULL_REQUEST_REPO"
            buildkiteRebuiltFromBuildID := envGetD envs "BUILDKITE_REBUILT_FROM_BUILD_ID"
            buildkiteRebuiltFromBuildNumber :=
              envUintD envs "BUILDKITE_REBUILT_FROM_BUILD_NUMBER" uint64Max
            buildkiteRepoURL := envGetD envs "BUILDKITE_REPO"
            buildkiteRetryCount := envUintD envs "BUILDKITE_RETRY_COUNT" uint32Max
            buildkiteTag := envGetD envs "BUILDKITE_TAG"
            nwo := nwo }

/-- `circleMetadata` (providers.go:131-148). -/
structure CircleMetadata where
  circleBranch : String
  circleBuildNumber : Nat
  circleBuildURL : String
  circleJob : String
  circleProjectReponame : String
  circleProjectUsername : String
  circlePullRequestNumber : Nat
  circlePullRequestReponame : String
  circlePullRequestURL : String
  circlePullRequestUsername : String
  circleRepoURL : String
  circleSHA1 : String
  circleTag : String
  circleUsername : String
  circleWorkflowID : String
  deriving Repr, DecidableEq, Inhabited

/-- The `env`-library field errors of `circleMetadata.Init`, in
struct-field declaration order. -/
def circleEnvErrors (envs : Env) : List String :=
  List.filterMap id
    [uintFieldError envs "CircleBuildNumber" "CIRCLE_BUILD_NUM" "uint64" uint64Max,
     uintFieldError envs "CirclePullRequestNumber" "CIRCLE_PR_NUMBER" "uint" uint32Max]

/-- `circleMetadata.Init` (providers.go:150-158): `env.Parse` only. -/
def circleInit (envs : Env) : Except String CircleMetadata :=
  if circleEnvErrors envs ≠ [] then .error (envAggregateError (circleEnvErrors envs))
  else
    .ok { circleBranch := envGetD envs "CIRCLE_BRANCH"
          circleBuildNumber := envUintD envs "CIRCLE_BUILD_NUM" uint64Max
          circleBuildURL := envGetD envs "CIRCLE_BUILD_URL"
          circleJob := envGetD envs "CIRCLE_JOB"
          circleProjectReponame := envGetD envs "CIRCLE_PROJECT_REPONAME"
          circleProjectUsername := envGetD envs "CIRCLE_PROJECT_USERNAME"
          circlePullRequestNumber := envUintD envs "CIRCLE_PR_NUMBER" uint32Max
          circlePullRequestReponame := envGetD envs "CIRCLE_PR_REPONAME"
          circlePullRequestURL := envGetD envs "CIRCLE_PULL_REQUEST"
          circlePullRequestUsername := envGetD envs "CIRCLE_PR_USERNAME"
          circleRepoURL := envGetD envs "CIRCLE_REPOSITORY_URL"
          circleSHA1 := envGetD envs "CIRCLE_SHA1"
          circleTag := envGetD envs "CIRCLE_TAG"
          circleUsername := envGetD envs "CIRCLE_USERNAME"
          circleWorkflowID := envGetD envs "CIRCLE_WORKFLOW_ID" }

/-- `githubMetadata` (providers.go:182-200). -/
structure GithubMetadata where
  githubActor : String
  githubBaseRef : String
  githubEventName : String
  githubHeadRef : String
  githubRef : String
  githubRepoNWO : String
  githubRepoURL : String
  githubRunAttempt : Nat
  githubRunID : Nat
  githubRunNumber : Nat
  githubServerURL : String
  githubSHA : String
  githubWorkflow : String
  branch : String
  buildURL : String
  deriving Repr, DecidableEq, Inhabited

/-- The `env`-library field errors of `githubMetadata.Init`, in
struct-field declaration order. -/
def githubEnvErrors (envs : Env) : List String :=
  List.filterMap id
    [uintFieldError envs "GithubRunAttempt" "GITHUB_RUN_ATTEMPT" "uint" uint32Max,
     uintFieldError envs "GithubRunID" "GITHUB_RUN_ID" "uint64" uint64Max,
     uintFieldError envs "GithubRunNumber" "GITHUB_RUN_NUMBER" "uint" uint32Max]

/-- `githubMetadata.Init` (providers.go:202-230): `env.Parse`, default the
server URL to `https://github.com` when unset or blank, derive the repo
URL and build URL, and derive the branch — head ref for a `pull_request`
event, the `refs/heads/`-stripped ref for a ref in the heads namespace,
empty string otherwise. -/
def githubInit (envs : Env) : Except String GithubMetadata :=
  if githubEnvErrors envs ≠ [] then .error (envAggregateError (githubEnvErrors envs))
  else
    let serverURL0 := envGetD envs "GITHUB_SERVER_URL"
    let serverURL := if serverURL0 = "" then "https://github.com" else serverURL0
    let repoNWO := envGetD envs "GITHUB_REPOSITORY"
    let repoURL := serverURL ++ "/" ++ repoNWO
    let runID := envUintD envs "GITHUB_RUN_ID" uint64Max
    let runAttempt := envUintD envs "GITHUB_RUN_ATTEMPT" uint32Max
    let buildURL := repoURL ++ "/actions/runs/" ++ toString runID ++
      "/attempts/" ++ toString runAttempt
    let eventName := envGetD envs "GITHUB_EVENT_NAME"
    let ref := envGetD envs "GITHUB_REF"
    let isPullRequest := eventName = "pull_request"
    let isBranch := goHasLeading ref "refs/heads/"
    let branch :=
      if isPullRequest then envGetD envs "GITHUB_HEAD_REF"
      else if isBranch then goTrimLeading ref "refs/heads/"
      else ""
    .ok { githubActor := envGetD envs "GITHUB_ACTOR"
          githubBaseRef := envGetD envs "GITHUB_BASE_REF"
          githubEventName := eventName
          githubHeadRef := envGetD envs "GITHUB_HEAD_REF"
          githubRef := ref
          githubRepoNWO := repoNWO
          githubRepoURL := repoURL
          githubRunAttempt := runAttempt
          githubRunID := runID
          githubRunNumber := envUintD envs "GITHUB_RUN_NUMBER" uint32Max
          githubServerURL := serverURL
          githubSHA := envGetD envs "GITHUB_SHA"
          githubWorkflow := envGetD envs "GITHUB_WORKFLOW"
          branch := branch
          buildURL := buildURL }

/-- `jenkinsMetadata` (providers.go:254-267). -/
structure JenkinsMetadata where
  gitBranch : String
  gitCommit : String
  gitURL : String
  jenkinsExecutorNumber : Nat
  jenkinsJobName : String
  jenkinsJobURL : String
  jenkinsNodeName : String
  jenkinsWorkspace : String
  buildURL : String
  nwo : String
  deriving Repr, DecidableEq, Inhabited

/-- The `env`-library field errors of `jenkinsMetadata.Init`, in
struct-field declaration order. -/
def jenkinsEnvErrors (envs : Env) : List String :=
  List.filterMap id
    [uintFieldError envs "JenkinsExecutorNumber" "EXECUTOR_NUMBER" "uint64" uint64Max]

/-- `jenkinsMetadata.Init` (providers.go:269-289): `env.Parse`, require a
non-empty `BUILD_URL`, then name-with-owner extraction from `GIT_URL`. -/
def jenkinsInit (envs : Env) : Except String JenkinsMetadata :=
  if jenkinsEnvErrors envs ≠ [] then .error (envAggregateError (jenkinsEnvErrors envs))
  else if envGetD envs "BUILD_URL" = "" then
    .error "missing required environment variable: BUILD_URL"
  else match nameWithOwnerFromGitURL (envGetD envs "GIT_URL") with
    | .error e => .error e
    | .ok nwo =>
      .ok { gitBranch := envGetD envs "GIT_BRANCH"
            gitCommit := envGetD envs "GIT_COMMIT"
            gitURL := envGetD envs "GIT_URL"
            jenkinsExecutorNumber := envUintD envs "EXECUTOR_NUMBER" uint64Max
            jenkinsJobName := envGetD envs "JOB_NAME"
            jenkinsJobURL := envGetD envs "JOB_URL"
            jenkinsNodeName := envGetD envs "NODE_NAME"
            jenkinsWorkspace := envGetD envs "WORKSPACE"
            buildURL := envGetD envs "BUILD_URL"
            nwo := nwo }

/-- `semaphoreMetadata` (providers.go:313-334). -/
structure SemaphoreMetadata where
  semaphoreAgentMachineEnvironmentType : String
  semaphoreAgentMachineOsImage : String
  semaphoreAgentMachineType : String
  semaphoreGitBranch : String
  semaphoreGitCommitRange : String
  semaphoreGitDir : String
  semaphoreGitRef : String
  semaphoreGitRefType : String
  semaphoreGitRepoSlug : String
  semaphoreGitSHA : String
  semaphoreGitURL : String
  semaphoreJobID : String
  semaphoreJobName : String
  semaphoreJobResult : String
  semaphoreOrganizationURL : String
  semaphoreProjectID : String
  semaphoreProjectName : String
  semaphoreWorkflowID : String
  semaphoreWorkflowNumber : Nat
  deriving Repr, DecidableEq, Inhabited

/-- The `env`-library field errors of `semaphoreMetadata.Init`, in
struct-field declaration order. -/
def semaphoreEnvErrors (envs : Env) : List String :=
  List.filterMap id
    [uintFieldError envs "SemaphoreWorkflowNumber" "SEMAPHORE_WORKFLOW_NUMBER" "uint64" uint64Max]

/-- `semaphoreMetadata.Init` (providers.go:336-344): `env.Parse` only. -/
def semaphoreInit (envs : Env) : Except String SemaphoreMetadata :=
  if semaphoreEnvErrors envs ≠ [] then .error (envAggregateError (semaphoreEnvErrors envs))
  else
    .ok { semaphoreAgentMachineEnvironmentType :=
            envGetD envs "SEMAPHORE_AGENT_MACHINE_ENVIRONMENT_TYPE"
          semaphoreAgentMachineOsImage := envGetD envs "SEMAPHORE_AGENT_MACHINE_OS_IMAGE"
          semaphoreAgentMachineType := envGetD envs "SEMAPHORE_AGENT_MACHINE_TYPE"
          semaphoreGitBranch := envGetD envs "SEMAPHORE_GIT_BRANCH"
          semaphoreGitCommitRange := envGetD envs "SEMAPHORE_GIT_COMMIT_RANGE"
          semaphoreGitDir := envGetD envs "SEMAPHORE_GIT_DIR"
          semaphoreGitRef := envGetD envs "SEMAPHORE_GIT_REF"
          semaphoreGitRefType := envGetD envs "SEMAPHORE_GIT_REF_TYPE"
          semaphoreGitRepoSlug := envGetD envs "SEMAPHORE_GIT_REPO_SLUG"
          semaphoreGitSHA := envGetD envs "SEMAPHORE_GIT_SHA"
          semaphoreGitURL := envGetD envs "SEMAPHORE_GIT_URL"
          semaphoreJobID := envGetD envs "SEMAPHORE_JOB_ID"
          semaphoreJobName := envGetD envs "SEMAPHORE_JOB_NAME"
          semaphoreJobResult := envGetD envs "SEMAPHORE_JOB_RESULT"
          semaphoreOrganizationURL := envGetD envs "SEMAPHORE_ORGANIZATION_URL"
          semaphoreProjectID := envGetD envs "SEMAPHORE_PROJECT_ID"
          semaphoreProjectName := envGetD envs "SEMAPHORE_PROJECT_NAME"
          semaphoreWorkflowID := envGetD envs "SEMAPHORE_WORKFLOW_ID"
          semaphoreWorkflowNumber := envUintD envs "SEMAPHORE_WORKFLOW_NUMBER" uint64Max }

/-- `travisMetadata` (providers.go:368-394). -/
structure TravisMetadata where
  travisBranch : String
  travisBuildDir : String
  travisBuildID : Nat
  travisBuildNumber : Nat
  travisBuildWebURL : String
  travisCommit : String
  travisCommitRange : String
  travisCPUArch : String
  travisDist : String
  travisEventType : String
  travisJobID : Nat
  travisJobName : String
  travisJobNumber : String
  travisJobWebURL : String
  travisOsName : String
  travisPullRequest : String
  travisPullRequestBranch : String
  travisPullRequestNumber : Nat
  travisPullRequestSha : String
  travisPullRequestSlug : String
  travisRepoSlug : String
  travisSudo : Bool
  travisTag : String
  travisTestResult : Nat
  deriving Repr, DecidableEq, Inhabited

/-- The `env`-library field errors of `travisMetadata.Init`, in
struct-field declaration order. -/
def travisEnvErrors (envs : Env) : List String :=
  List.filterMap id
    [uintFieldError envs "TravisBuildID" "TRAVIS_BUILD_ID" "uint64" uint64Max,
     uintFieldError envs "TravisBuildNumber" "TRAVIS_BUILD_NUMBER" "uint64" uint64Max,
     uintFieldError envs "TravisJobID" "TRAVIS_JOB_ID" "uint64" uint64Max,
     boolFieldError envs "TravisSudo" "TRAVIS_SUDO",
     uintFieldError envs "TravisTestResult" "TRAVIS_TEST_RESULT" "uint" uint32Max]

/-- `travisMetadata.Init` (providers.go:396-409): `env.Parse`, then
best-effort `ParseUint` of `TRAVIS_PULL_REQUEST` whose failure is ignored,
leaving the number field at zero. -/
def travisInit (envs : Env) : Except String TravisMetadata :=
  if travisEnvErrors envs ≠ [] then .error (envAggregateError (travisEnvErrors envs))
  else
    .ok { travisBranch := envGetD envs "TRAVIS_BRANCH"
          travisBuildDir := envGetD envs "TRAVIS_BUILD_DIR"
          travisBuildID := envUintD envs "TRAVIS_BUILD_ID" uint64Max
          travisBuildNumber := envUintD envs "TRAVIS_BUILD_NUMBER" uint64Max
          travisBuildWebURL := envGetD envs "TRAVIS_BUILD_WEB_URL"
          travisCommit := envGetD envs "TRAVIS_COMMIT"
          travisCommitRange := envGetD envs "TRAVIS_COMMIT_RANGE"
          travisCPUArch := envGetD envs "TRAVIS_CPU_ARCH"
          travisDist := envGetD envs "TRAVIS_DIST"
          travisEventType := envGetD envs "TRAVIS_EVENT_TYPE"
          travisJobID := envUintD envs "TRAVIS_JOB_ID" uint64Max
          travisJobName := envGetD envs "TRAVIS_JOB_NAME"
          travisJobNumber := envGetD envs "TRAVIS_JOB_NUMBER"
          travisJobWebURL := envGetD envs "TRAVIS_JOB_WEB_URL"
          travisOsName := envGetD envs "TRAVIS_OS_NAME"
          travisPullRequest := envGetD envs "TRAVIS_PULL_REQUEST"
          travisPullRequestBranch := envGetD envs "TRAVIS_PULL_REQUEST_BRANCH"
          travisPullRequestNumber :=
            (goParseUint0 (envGetD envs "TRAVIS_PULL_REQUEST")).getD 0
          travisPullRequestSha := envGetD envs "TRAVIS_PULL_REQUEST_SHA"
          travisPullRequestSlug := envGetD envs "TRAVIS_PULL_REQUEST_SLUG"
          travisRepoSlug := envGetD envs "TRAVIS_REPO_SLUG"
          travisSudo := envBoolD envs "TRAVIS_SUDO"
          travisTag := envGetD envs "TRAVIS_TAG"
          travisTestResult := envUintD envs "TRAVIS_TEST_RESULT" uint32Max }

/-- `webappioMetadata` (providers.go:444-455). -/
structure WebappioMetadata where
  gitBranch : String
  gitCommit : String
  jobID : Nat
  pullRequestURL : String
  organizationName : String
  repositoryName : String
  repositoryOwner : String
  retryIndex : Nat
  runnerID : String
  deriving Repr, DecidableEq, Inhabited

/-- The `env`-library field errors of `webappioMetadata.Init`, in
struct-field declaration order. -/
def webappioEnvErrors (envs : Env) : List String :=
  List.filterMap id
    [uintFieldError envs "JobID" "JOB_ID" "uint64" uint64Max,
     uintFieldError envs "RetryIndex" "RETRY_INDEX" "uint" uint32Max]

/-- `webappioMetadata.Init` (providers.go:457-465): `env.Parse` only. -/
def webappioInit (envs : Env) : Except String WebappioMetadata :=
  if webappioEnvErrors envs ≠ [] then .error (envAggregateError (webappioEnvErrors envs))
  else
    .ok { gitBranch := envGetD envs "GIT_BRANCH"
          gitCommit := envGetD envs "GIT_COMMIT"
          jobID := envUintD envs "JOB_ID" uint64Max
          pullRequestURL := envGetD envs "PULL_REQUEST_URL"
          organizationName := envGetD envs "ORGANIZATION_NAME"
          repositoryName := envGetD envs "REPOSITORY_NAME"
          repositoryOwner := envGetD envs "REPOSITORY_OWNER"
          retryIndex := envUintD envs "RETRY_INDEX" uint32Max
          runnerID := envGetD envs "RUNNER_ID" }

/-- `awsCodeBuildMetadata` (providers.go:496-521). -/
structure AwsCodeBuildMetadata where
  awsDefaultRegion : String
  awsRegion : String
  codebuildBatchBuildIdentifier : String
  codebuildBuildARN : String
  codebuildBuildID : String
  codebuildBuildImage : String
  codebuildBuildNumber : Nat
  codebuildBuildSucceeding : Nat
  codebuildInitiator : String
  codebuildKmsKeyID : String
  codebuildLogPath : String
  codebuildPublicBuildURL : String
  codebuildResolvedSourceVersion : String
  codebuildSourceRepoURL : String
  codebuildSourceVersion : String
  codebuildSrcDir : String
  codebuildStartTime : String
  codebuildWebhookActorAccountID : String
  codebuildWebhookBaseRef : String
  codebuildWebhookEvent : String
  codebuildWebhookMergeCommit : String
  codebuildWebhookPrevCommit : String
  codebuildWebhookHeadRef : String
  codebuildWebhookTrigger : String
  deriving Repr, DecidableEq, Inhabited

/-- The `env`-library field errors of `awsCodeBuildMetadata.Init`, in
struct-field declaration order. -/
def awsCodeBuildEnvErrors (envs : Env) : List String :=
  List.filterMap id
    [uintFieldError envs "CodebuildBuildNumber" "CODEBUILD_BUILD_NUMBER" "uint64" uint64Max,
     uintFieldError envs "CodebuildBuildSucceeding" "CODEBUILD_BUILD_SUCCEEDING" "uint" uint32Max]

/-- `awsCodeBuildMetadata.Init` (providers.go:523-531): `env.Parse` only. -/
def awsCodeBuildInit (envs : Env) : Except String AwsCodeBuildMetadata :=
  if awsCodeBuildEnvErrors envs ≠ [] then .error (envAggregateError (awsCodeBuildEnvErrors envs))
  else
    .ok { awsDefaultRegion := envGetD envs "AWS_DEFAULT_REGION"
          awsRegion := envGetD envs "AWS_REGION"
          codebuildBatchBuildIdentifier := envGetD envs "CODEBUILD_BATCH_BUILD_IDENTIFIER"
          codebuildBuildARN := envGetD envs "CODEBUILD_BUILD_ARN"
          codebuildBuildID := envGetD envs "CODEBUILD_BUILD_ID"
          codebuildBuildImage := envGetD envs "CODEBUILD_BUILD_IMAGE"
          codebuildBuildNumber := envUintD envs "CODEBUILD_BUILD_NUMBER" uint64Max
          codebuildBuildSucceeding := envUintD envs "CODEBUILD_BUILD_SUCCEEDING" uint32Max
          codebuildInitiator := envGetD envs "CODEBUILD_INITIATOR"
          codebuildKmsKeyID := envGetD envs "CODEBUILD_KMS_KEY_ID"
          codebuildLogPath := envGetD envs "CODEBUILD_LOG_PATH"
          codebuildPublicBuildURL := envGetD envs "CODEBUILD_PUBLIC_BUILD_URL"
          codebuildResolvedSourceVersion := envGetD envs "CODEBUILD_RESOLVED_SOURCE_VERSION"
          codebuildSourceRepoURL := envGetD envs "CODEBUILD_SOURCE_REPO_URL"
          codebuildSourceVersion := envGetD envs "CODEBUILD_SOURCE_VERSION"
          codebuildSrcDir := envGetD envs "CODEBUILD_SRC_DIR"
          codebuildStartTime := envGetD envs "CODEBUILD_START_TIME"
          codebuildWebhookActorAccountID := envGetD envs "CODEBUILD_WEBHOOK_ACTOR_ACCOUNT_ID"
          codebuildWebhookBaseRef := envGetD envs "CODEBUILD_WEBHOOK_BASE_REF"
          codebuildWebhookEvent := envGetD envs "CODEBUILD_WEBHOOK_EVENT"
          codebuildWebhookMergeCommit := envGetD envs "CODEBUILD_WEBHOOK_MERGE_COMMIT"
          codebuildWebhookPrevCommit := envGetD envs "CODEBUILD_WEBHOOK_PREV_COMMIT"
          codebuildWebhookHeadRef := envGetD envs "CODEBUILD_WEBHOOK_HEAD_REF"
          codebuildWebhookTrigger := envGetD envs "CODEBUILD_WEBHOOK_TRIGGER" }

/-- `bitbucketMetadata` (providers.go:566-593). -/
structure BitbucketMetadata where
  bitbucketBuildNumber : Nat
  bitbucketCloneDir : String
  bitbucketCommit : String
  bitbucketWorkspace : String
  bitbucketRepoSlug : String
  bitbucketRepoUUID : String
  bitbucketRepoFullName : String
  bitbucketBranch : String
  bitbucketTag : String
  bitbucketBookmark : String
  bitbucketParallelStep : String
  bitbucketParallelStepCount : String
  bitbucketPrID : String
  bitbucketPrDestinationBranch : String
  bitbucketGitHTTPOrigin : String
  bitbucketGitSSHOrigin : String
  bitbucketExitCode : String
  bitbucketStepUUID : String
  bitbucketPipelineUUID : String
  bitbucketDeploymentEnvironment : String
  bitbucketDeploymentEnvironmentUUID : String
  bitbucketProjectKey : String
  bitbucketProjectUUID : String
  bitbucketStepTriggererUUID : String
  bitbucketStepOIDCToken : String
  bitbucketSSHKeyFile : String
  deriving Repr, DecidableEq, Inhabited

/-- The `env`-library field errors of `bitbucketMetadata.Init`, in
struct-field declaration order. -/
def bitbucketEnvErrors (envs : Env) : List String :=
  List.filterMap id
    [uintFieldError envs "BitbucketBuildNumber" "BITBUCKET_BUILD_NUMBER" "uint64" uint64Max]

/-- `bitbucketMetadata.Init` (providers.go:595-603): `env.Parse` only. -/
def bitbucketInit (envs : Env) : Except String BitbucketMetadata :=
  if bitbucketEnvErrors envs ≠ [] then .error (envAggregateError (bitbucketEnvErrors envs))
  else
    .ok { bitbucketBuildNumber := envUintD envs "BITBUCKET_BUILD_NUMBER" uint64Max
          bitbucketCloneDir := envGetD envs "BITBUCKET_CLONE_DIR"
          bitbucketCommit := envGetD envs "BITBUCKET_COMMIT"
          bitbucketWorkspace := envGetD envs "BITBUCKET_WORKSPACE"
          bitbucketRepoSlug := envGetD envs "BITBUCKET_REPO_SLUG"
          bitbucketRepoUUID := envGetD envs "BITBUCKET_REPO_UUID"
          bitbucketRepoFullName := envGetD envs "BITBUCKET_REPO_FULL_NAME"
          bitbucketBranch := envGetD envs "BITBUCKET_BRANCH"
          bitbucketTag := envGetD envs "BITBUCKET_TAG"
          bitbucketBookmark := envGetD envs "BITBUCKET_BOOKMARK"
          bitbucketParallelStep := envGetD envs "BITBUCKET_PARALLEL_STEP"
          bitbucketParallelStepCount := envGetD envs "BITBUCKET_PARALLEL_STEP_COUNT"
          bitbucketPrID := envGetD envs "BITBUCKET_PR_ID"
          bitbucketPrDestinationBranch := envGetD envs "BITBUCKET_PR_DESTINATION_BRANCH"
          bitbucketGitHTTPOrigin := envGetD envs "BITBUCKET_GIT_HTTP_ORIGIN"
          bitbucketGitSSHOrigin := envGetD envs "BITBUCKET_GIT_SSH_ORIGIN"
          bitbucketExitCode := envGetD envs "BITBUCKET_EXIT_CODE"
          bitbucketStepUUID := envGetD envs "BITBUCKET_STEP_UUID"
          bitbucketPipelineUUID := envGetD envs "BITBUCKET_PIPELINE_UUID"
          bitbucketDeploymentEnvironment := envGetD envs "BITBUCKET_DEPLOYMENT_ENVIRONMENT"
          bitbucketDeploymentEnvironmentUUID :=
            envGetD envs "BITBUCKET_DEPLOYMENT_ENVIRONMENT_UUID"
          bitbucketProjectKey := envGetD envs "BITBUCKET_PROJECT_KEY"
          bitbucketProjectUUID := envGetD envs "BITBUCKET_PROJECT_UUID"
          bitbucketStepTriggererUUID := envGetD envs "BITBUCKET_STEP_TRIGGERER_UUID"
          bitbucketStepOIDCToken := envGetD envs "BITBUCKET_STEP_OIDC_TOKEN"
          bitbucketSSHKeyFile := envGetD envs "BITBUCKET_SSH_KEY_FILE" }

/-- `azurePipelinesMetadata` (providers.go:627-661). -/
structure AzurePipelinesMetadata where
  buildID : String
  buildNumber : String
  buildURI : String
  binariesDirectory : String
  containerID : String
  definitionName : String
  definitionVersion : String
  queuedBy : String
  queuedByID : String
  reason : String
  repositoryClean : String
  repositoryLocalpath : String
  repositoryID : String
  repositoryName : String
  repositoryProvider : String
  repositoryTFVCWorkspace : String
  repositoryURI : String
  requestedForEmail : String
  requestedForID : String
  sourceBranch : String
  sourceBranchName : String
  sourcesDirectory : String
  sourceVersion : String
  sourceVersionMessage : String
  stagingDirectory : String
  repositoryGitSubmoduleCheckout : String
  sourceTFVCShelveSet : String
  teamFoundationCollectionURI : String
  triggeredByBuildID : String
  triggeredByDefinitionID : String
  triggeredByDefinitionName : String
  triggeredByBuildNumber : String
  triggeredByProjectID : String
  deriving Repr, DecidableEq, Inhabited

/-- The `env`-library field errors of `azurePipelinesMetadata.Init`, in
struct-field declaration order. -/
def customEnvErrors (envs : Env) : List String :=
  List.filterMap id
    [notEmptyFieldError envs "GIT_BRANCH",
     notEmptyFieldError envs "GIT_COMMIT",
     notEmptyFieldError envs "BUILD_URL",
     notEmptyFieldError envs "ORGANIZATION_NAME",
     notEmptyFieldError envs "REPOSITORY_NAME"]

/-- `azurePipelinesMetadata.Init` (providers.go:663-671): `env.Parse` only
(every field is a string, so no error is possible and `Init` always
succeeds; the `Except` shape is kept for uniformity). -/
def azurePipelinesInit (envs : Env) : Except String AzurePipelinesMetadata :=
  .ok { buildID := envGetD envs "BUILD_BUILDID"
        buildNumber := envGetD envs "BUILD_BUILDNUMBER"
        buildURI := envGetD envs "BUILD_BUILDURI"
        binariesDirectory := envGetD envs "BUILD_BINARIESDIRECTORY"
        containerID := envGetD envs "BUILD_CONTAINERID"
        definitionName := envGetD envs "BUILD_DEFINITIONNAME"
        definitionVersion := envGetD envs "BUILD_DEFINITIONVERSION"
        queuedBy := envGetD envs "BUILD_QUEUEDBY"
        queuedByID := envGetD envs "BUILD_QUEUEDBYID"
        reason := envGetD envs "BUILD_REASON"
        repositoryClean := envGetD envs "BUILD_REPOSITORY_CLEAN"
        repositoryLocalpath := envGetD envs "BUILD_REPOSITORY_LOCALPATH"
        repositoryID := envGetD envs "BUILD_REPOSITORY_ID"
        repositoryName := envGetD envs "BUILD_REPOSITORY_NAME"
        repositoryProvider := envGetD envs "BUILD_REPOSITORY_PROVIDER"
        repositoryTFVCWorkspace := envGetD envs "BUILD_REPOSITORY_TFVC_WORKSPACE"
        repositoryURI := envGetD envs "BUILD_REPOSITORY_URI"
        requestedForEmail := envGetD envs "BUILD_REQUESTEDFOREMAIL"
        requestedForID := envGetD envs "BUILD_REQUESTEDFORID"
        sourceBranch := envGetD envs "BUILD_SOURCEBRANCH"
        sourceBranchName := envGetD envs "BUILD_SOURCEBRANCHNAME"
        sourcesDirectory := envGetD envs "BUILD_SOURCESDIRECTORY"
        sourceVersion := envGetD envs "BUILD_SOURCEVERSION"
        sourceVersionMessage := envGetD envs "BUILD_SOURCEVERSIONMESSAGE"
        stagingDirectory := envGetD envs "BUILD_STAGINGDIRECTORY"
        repositoryGitSubmoduleCheckout := envGetD envs "BUILD_REPOSITORY_GIT_SUBMODULECHECKOUT"
        sourceTFVCShelveSet := envGetD envs "BUILD_SOURCETFVCSHELVESET"
        teamFoundationCollectionURI := envGetD envs "SYSTEM_TEAMFOUNDATIONCOLLECTIONURI"
        triggeredByBuildID := envGetD envs "BUILD_TRIGGEREDBY_BUILDID"
        triggeredByDefinitionID := envGetD envs "BUILD_TRIGGEREDBY_DEFINITIONID"
        triggeredByDefinitionName := envGetD envs "BUILD_TRIGGEREDBY_DEFINITIONNAME"
        triggeredByBuildNumber := envGetD envs "BUILD_TRIGGEREDBY_BUILDNUMBER"
        triggeredByProjectID := envGetD envs "BUILD_TRIGGEREDBY_PROJECTID" }

/-- `customMetadata` (providers.go:699-706): the fallback variant; all five
fields carry the `notEmpty` option. -/
structure CustomMetadata where
  gitBranch : String
  gitCommit : String
  buildURI : String
  organizationName : String
  repositoryName : String
  deriving Repr, DecidableEq, Inhabited

/-- `customMetadata.Init` (providers.go:708-716): `env.Parse` with
`notEmpty` on every field, aggregating one error per unset-or-empty
variable in field-declaration order. -/
def customInit (envs : Env) : Except String CustomMetadata :=
  if customEnvErrors envs ≠ [] then .error (envAggregateError (customEnvErrors envs))
  else
    .ok { gitBranch := envGetD envs "GIT_BRANCH"
          gitCommit := envGetD envs "GIT_COMMIT"
          buildURI := envGetD envs "BUILD_URL"
          organizationName := envGetD envs "ORGANIZATION_NAME"
          repositoryName := envGetD envs "REPOSITORY_NAME" }

/-! ### Provider detection and dispatch (`newProviderMetadata`, providers.go:26-60) -/

/-- The eleven provider variants, in the order of the detection switch. -/
inductive ProviderKind where
  | buildkite
  | circleci
  | githubActions
  | jenkins
  | semaphore
  | travis
  | webappio
  | awsCodeBuild
  | bitbucket
  | azurePipelines
  | custom
  deriving Repr, DecidableEq, Inhabited

/-- The detection switch of `newProviderMetadata` (providers.go:29-52):
first-match-wins over the fixed case order.  (Go `len(v) > 0` on a map
read is the same as `v != ""`.) -/
def detectProviderKind (envs : Env) : ProviderKind :=
  if envGetD envs "BUILDKITE" = "true" then .buildkite
  else if envGetD envs "CIRCLECI" = "true" then .circleci
  else if envGetD envs "GITHUB_ACTIONS" = "true" then .githubActions
  else if envGetD envs "JENKINS_HOME" ≠ "" then .jenkins
  else if envGetD envs "SEMAPHORE" = "true" then .semaphore
  else if envGetD envs "TRAVIS" = "true" then .travis
  else if envGetD envs "WEBAPPIO" = "true" then .webappio
  else if envGetD envs "CODEBUILD_BUILD_ID" ≠ "" then .awsCodeBuild
  else if envGetD envs "BITBUCKET_BUILD_NUMBER" ≠ "" then .bitbucket
  else if envGetD envs "BUILD_BUILDID" ≠ "" then .azurePipelines
  else .custom

/-- The selected-and-initialized provider value (the `providerMetadata`
interface value held by the aggregator). -/
inductive ProviderData where
  | buildkite (b : BuildkiteMetadata)
  | circleci (c : CircleMetadata)
  | githubActions (g : GithubMetadata)
  | jenkins (j : JenkinsMetadata)
  | semaphore (s : SemaphoreMetadata)
  | travis (t : TravisMetadata)
  | webappio (w : WebappioMetadata)
  | awsCodeBuild (a : AwsCodeBuildMetadata)
  | bitbucket (b : BitbucketMetadata)
  | azurePipelines (a : AzurePipelinesMetadata)
  | custom (c : CustomMetadata)
  deriving Repr, DecidableEq, Inhabited

/-- `newProviderMetadata` (providers.go:26-60): select the variant by the
detection switch, then run its `Init`, propagating its error. -/
def newProviderMetadata (envs : Env) : Except String ProviderData :=
  match detectProviderKind envs with
  | .buildkite => (buildkiteInit envs).map .buildkite
  | .circleci => (circleInit envs).map .circleci
  | .githubActions => (githubInit envs).map .githubActions
  | .jenkins => (jenkinsInit envs).map .jenkins
  | .semaphore => (semaphoreInit envs).map .semaphore
  | .travis => (travisInit envs).map .travis
  | .webappio => (webappioInit envs).map .webappio
  | .awsCodeBuild => (awsCodeBuildInit envs).map .awsCodeBuild
  | .bitbucket => (bitbucketInit envs).map .bitbucket
  | .azurePipelines => (azurePipelinesInit envs).map .azurePipelines
  | .custom => (customInit envs).map .custom

/-- The `Branch()` accessor of each variant. -/
def ProviderData.branch : ProviderData → String
  | .buildkite b => b.buildkiteBranch
  | .circleci c => c.circleBranch
  | .githubActions g => g.branch
  | .jenkins j => j.gitBranch
  | .semaphore s => s.semaphoreGitBranch
  | .travis t => t.travisBranch
  | .webappio w => w.gitBranch
  | .awsCodeBuild a => a.codebuildSourceVersion
  | .bitbucket b => b.bitbucketBranch
  | .azurePipelines a => a.sourceBranchName
  | .custom c => c.gitBranch

/-- The `BuildURL()` accessor of each variant. -/
def ProviderData.buildURL : ProviderData → String
  | .buildkite b => b.buildkiteBuildURL
  | .circleci c => c.circleBuildURL
  | .githubActions g => g.buildURL
  | .jenkins j => j.buildURL
  | .semaphore s => s.semaphoreOrganizationURL ++ "/workflows/" ++ s.semaphoreWorkflowID
  | .travis t => t.travisJobWebURL
  | .webappio w =>
    "https://webapp.io/" ++ w.organizationName ++ "/" ++ w.repositoryName ++ "/" ++
      toString w.jobID ++ "/" ++ w.runnerID ++ "-" ++ toString w.retryIndex
  | .awsCodeBuild a => a.codebuildPublicBuildURL
  | .bitbucket b =>
    b.bitbucketGitHTTPOrigin ++ "/addon/pipelines/home#!/results/" ++
      toString b.bitbucketBuildNumber
  | .azurePipelines a => a.buildURI
  | .custom c => c.buildURI

/-- The `CommitSHA()` accessor of each variant. -/
def ProviderData.commitSHA : ProviderData → String
  | .buildkite b => b.buildkiteCommit
  | .circleci c => c.circleSHA1
  | .githubActions g => g.githubSHA
  | .jenkins j => j.gitCommit
  | .semaphore s => s.semaphoreGitSHA
  | .travis t => t.travisCommit
  | .webappio w => w.gitCommit
  | .awsCodeBuild a => a.codebuildResolvedSourceVersion
  | .bitbucket b => b.bitbucketCommit
  | .azurePipelines a => a.sourceVersion
  | .custom c => c.gitCommit

/-- The `Name()` accessor of each variant. -/
def ProviderData.name : ProviderData → String
  | .buildkite _ => "buildkite"
  | .circleci _ => "circleci"
  | .githubActions _ => "github-actions"
  | .jenkins _ => "jenkins"
  | .semaphore _ => "semaphore"
  | .travis _ => "travis-ci"
  | .webappio _ => "webapp.io"
  | .awsCodeBuild _ => "aws-codebuild"
  | .bitbucket _ => "bitbucket.org"
  | .azurePipelines _ => "azure-pipelines"
  | .custom _ => "custom"

/-- Does `sub` occur as a contiguous run inside `l`? -/
def listHasInfix (sub : List Char) : List Char → Bool
  | [] => sub.isPrefixOf []
  | c :: cs => sub.isPrefixOf (c :: cs) || listHasInfix sub cs

/-- Go `strings.Contains`. -/
def goContains (s sub : String) : Bool := listHasInfix sub.toList s.toList

/-- The `RepoNameWithOwner()` accessor of each variant.  The aws-codebuild
variant can abort the process (see `awsRepoNameWithOwner`), which is the
`none` case; every other variant is total. -/
def ProviderData.repoNameWithOwner? : ProviderData → Option String
  | .buildkite b => some b.nwo
  | .circleci c => some (c.circleProjectUsername ++ "/" ++ c.circleProjectReponame)
  | .githubActions g => some g.githubRepoNWO
  | .jenkins j => some j.nwo
  | .semaphore s => some s.semaphoreGitRepoSlug
  | .travis t => some t.travisRepoSlug
  | .webappio w => some (w.repositoryOwner ++ "/" ++ w.repositoryName)
  | .awsCodeBuild a => awsRepoNameWithOwner a.codebuildPublicBuildURL
  | .bitbucket b => some (b.bitbucketWorkspace ++ "/" ++ b.bitbucketRepoSlug)
  | .azurePipelines a =>
    if goContains a.repositoryName "/" then some a.repositoryName
    else some (a.teamFoundationCollectionURI ++ "/" ++ a.repositoryName)
  | .custom c => some (c.organizationName ++ "/" ++ c.repositoryName)

/-! ### Commit resolution (commit.go) and the aggregate `Metadata`
(metadata.go) -/

/-- `time.Time`, reduced to the data the aggregator moves around: an
abstract instant with `0` as the zero value (`time.Time.IsZero`).  The
textual form a YAML timestamp takes is not modelled (no claim depends on
it); only identity and zero-ness are. -/
abbrev GoTime := Int

/-- `Commit` (commit.go:13-23). -/
structure Commit where
  authoredAt : GoTime
  authorEmail : String
  authorName : String
  committedAt : GoTime
  committerEmail : String
  committerName : String
  message : String
  sha : String
  treeSHA : String
  deriving Repr, DecidableEq, Inhabited

/-- The `CommitResolver` capability (commit.go:26-29): a lookup that may
fail and a source label. -/
structure CommitResolver where
  lookup : String → Except String Commit
  source : String

/-- `NewStaticCommitResolver` (commit.go:88-108): lookup always succeeds,
returning the template with the requested SHA written in; `Source()` is
`"Static"`. -/
def NewStaticCommitResolver (c : Commit) : CommitResolver where
  lookup := fun sha =>
    .ok { sha := sha
          authoredAt := c.authoredAt
          authorEmail := c.authorEmail
          authorName := c.authorName
          committedAt := c.committedAt
          committerEmail := c.committerEmail
          committerName := c.committerName
          message := c.message
          treeSHA := c.treeSHA }
  source := "Static"

/-- `Version` (version.go:8-13). -/
structure Version where
  commit : String
  number : String
  goOS : String
  goVersion : String
  deriving Repr, DecidableEq, Inhabited

/-- Go `strings.TrimSpace` (leading and trailing whitespace removed; Go
uses `unicode.IsSpace`, of which `Char.isWhitespace` covers the cases that
occur in commit messages). -/
def goTrimSpace (s : String) : String :=
  String.mk (((s.toList.dropWhile Char.isWhitespace).reverse.dropWhile
    Char.isWhitespace).reverse)

/-- `Metadata` (metadata.go:14-38): the universal fields plus the embedded
provider value.  The unexported `logger` field carries no data. -/
structure Metadata where
  authoredAt : GoTime
  authorEmail : String
  authorName : String
  branch : String
  buildURL : String
  check : String
  ciProvider : String
  commitMessage : String
  commitMetadataSource : String
  commitSHA : String
  committedAt : GoTime
  committerEmail : String
  committerName : String
  quotaID : String
  repoNameWithOwner : String
  reporterOS : String
  reporterVersion : String
  tags : List String
  timestamp : GoTime
  treeSHA : String
  providerData : ProviderData
  deriving Repr, DecidableEq, Inhabited

/-- `Metadata.initCommitData` (metadata.go:83-112): record the resolver's
source label unconditionally, then look the SHA up.  On failure, warn (not
modelled) and populate only the raw SHA, leaving every other commit field
at its zero value; on success, populate all commit fields, trimming the
message. -/
def initCommitData (m : Metadata) (cr : CommitResolver) (sha : String) : Metadata :=
  let m := { m with commitMetadataSource := cr.source }
  match cr.lookup sha with
  | .error _ => { m with commitSHA := sha }
  | .ok c =>
    { m with
      authoredAt := c.authoredAt
      authorEmail := c.authorEmail
      authorName := c.authorName
      commitMessage := goTrimSpace c.message
      commitSHA := c.sha
      committedAt := c.committedAt
      committerEmail := c.committerEmail
      committerName := c.committerName
      treeSHA := c.treeSHA }

/-- Outcome of running `NewMetadata`: a returned value, a returned error,
or a process abort (`os.Exit`/panic inside
`awsCodeBuildMetadata.RepoNameWithOwner`). -/
inductive Outcome (α : Type) where
  | ok (a : α)
  | err (e : String)
  | abort
  deriving Repr, DecidableEq, Inhabited

/-- `NewMetadata` (metadata.go:41-59) with `initProviderData`
(metadata.go:61-81) inlined in source order: detect and initialize the
provider (propagating its error), copy its accessors into the universal
fields (the `RepoNameWithOwner()` call is where the aws-codebuild variant
can abort the process), compute `Check` from `BUILDPULSE_CHECK_NAME` with
the provider name as fallback, resolve commit data, stamp the injected
clock's time and the version data, and attach the quota ID and tags.  The
clock argument is the instant the injected `now` function returns. -/
def NewMetadata (version : Version) (envs : Env) (tags : List String)
    (quotaID : String) (resolver : CommitResolver) (now : GoTime) :
    Outcome Metadata :=
  match newProviderMetadata envs with
  | .error e => .err e
  | .ok pd =>
    match pd.repoNameWithOwner? with
    | none => .abort
    | some nwo =>
      let check :=
        match envGet? envs "BUILDPULSE_CHECK_NAME" with
        | some c => if c ≠ "" then c else pd.name
        | none => pd.name
      let m : Metadata :=
        { authoredAt := 0
          authorEmail := ""
          authorName := ""
          branch := pd.branch
          buildURL := pd.buildURL
          check := check
          ciProvider := pd.name
          commitMessage := ""
          commitMetadataSource := ""
          commitSHA := ""
          committedAt := 0
          committerEmail := ""
          committerName := ""
          quotaID := ""
          repoNameWithOwner := nwo
          reporterOS := ""
          reporterVersion := ""
          tags := []
          timestamp := 0
          treeSHA := ""
          providerData := pd }
      let m := initCommitData m resolver pd.commitSHA
      let m := { m with timestamp := now }
      let m := { m with reporterOS := version.goOS, reporterVersion := version.number }
      let m := { m with quotaID := quotaID, tags := tags }
      .ok m

/-! ### The YAML serializer (`MarshalYAML`, metadata.go:124-136)

`gopkg.in/yaml.v3` marshals a struct as one `key: value` line per exported
field carrying a yaml tag other than `-`, in field-declaration order; a
field tagged `omitempty` whose value is the zero value for its type is
omitted entirely; a `[]string` renders as a block sequence under its key.
That behaviour is modelled by rendering an explicit field list per struct.
Scalars are rendered plainly (the quoting yaml.v3 applies to strings that
need it, and the RFC3339 text of a timestamp, are not modelled — no claim
depends on the character-level form of a value, only on which keys are
emitted and on list entries). -/

/-- A YAML-renderable field value. -/
inductive YamlValue where
  | str (s : String)
  | nat (n : Nat)
  | bool (b : Bool)
  | time (t : GoTime)
  | strList (l : List String)
  deriving Repr, DecidableEq, Inhabited

/-- Is the value the zero value of its Go type (the `omitempty` test;
yaml.v3 uses `IsZero` for `time.Time`)? -/
def YamlValue.isZero : YamlValue → Bool
  | .str s => s = ""
  | .nat n => n = 0
  | .bool b => !b
  | .time t => t = 0
  | .strList l => l.isEmpty

/-- One struct field as seen by the yaml marshaller: its key (the yaml tag),
its value, and whether the tag carries `omitempty`. -/
structure YamlField where
  key : String
  value : YamlValue
  omitempty : Bool
  deriving Repr, DecidableEq, Inhabited

/-- Scalar rendering (cf. the module comment on what is abstracted). -/
def yamlScalar : YamlValue → String
  | .str s => if s = "" then "\"\"" else s
  | .nat n => toString n
  | .bool b => if b then "true" else "false"
  | .time t => toString t
  | .strList _ => ""

/-- Render one emitted field: a scalar line, or a key line followed by one
`- entry` line per list element in order (yaml.v3's default 4-space
indentation). -/
def renderYamlField (f : YamlField) : String :=
  match f.value with
  | .strList l => f.key ++ ":\n" ++ String.join (l.map (fun s => "    - " ++ s ++ "\n"))
  | v => f.key ++ ": " ++ yamlScalar v ++ "\n"

/-- Is the field emitted (not suppressed by `omitempty`)? -/
def emitYamlField (f : YamlField) : Bool := !(f.omitempty && f.value.isZero)

/-- `yaml.Marshal` over a field list. -/
def yamlMarshal (fields : List YamlField) : String :=
  String.join ((fields.filter emitYamlField).map renderYamlField)

/-- The keys that actually appear in the marshalled document. -/
def emittedKeys (fields : List YamlField) : List String :=
  (fields.filter emitYamlField).map YamlField.key

/-- The universal-field block of `Metadata` (metadata.go:14-38), one entry
per yaml-tagged field in declaration order. -/
def metadataYamlFields (m : Metadata) : List YamlField :=
  [⟨":authored_at", .time m.authoredAt, true⟩,
   ⟨":author_email", .str m.authorEmail, true⟩,
   ⟨":author_name", .str m.authorName, true⟩,
   ⟨":branch", .str m.branch, false⟩,
   ⟨":build_url", .str m.buildURL, false⟩,
   ⟨":check", .str m.check, false⟩,
   ⟨":ci_provider", .str m.ciProvider, false⟩,
   ⟨":commit_message", .str m.commitMessage, true⟩,
   ⟨":commit_metadata_source", .str m.commitMetadataSource, false⟩,
   ⟨":commit", .str m.commitSHA, false⟩,
   ⟨":committed_at", .time m.committedAt, true⟩,
   ⟨":committer_email", .str m.committerEmail, true⟩,
   ⟨":committer_name", .str m.committerName, true⟩,
   ⟨":quota_id", .str m.quotaID, true⟩,
   ⟨":repo_name_with_owner", .str m.repoNameWithOwner, false⟩,
   ⟨":reporter_os", .str m.reporterOS, false⟩,
   ⟨":reporter_version", .str m.reporterVersion, false⟩,
   ⟨":tags", .strList m.tags, true⟩,
   ⟨":timestamp", .time m.timestamp, false⟩,
   ⟨":tree", .str m.treeSHA, true⟩]

/-- The provider-specific block: the yaml-tagged fields of the active
variant's struct, in declaration order, `-`-tagged and unexported fields
excluded. -/
def providerYamlFields : ProviderData → List YamlField
  | .buildkite b =>
    [⟨":buildkite_build_id", .str b.buildkiteBuildID, false⟩,
     ⟨":buildkite_build_number", .nat b.buildkiteBuildNumber, false⟩,
     ⟨":buildkite_job_id", .str b.buildkiteJobID, false⟩,
     ⟨":buildkite_label", .str b.buildkiteLabel, false⟩,
     ⟨":buildkite_organization_slug", .str b.buildkiteOrganizationSlug, false⟩,
     ⟨":buildkite_pipeline_id", .str b.buildkitePipelineID, false⟩,
     ⟨":buildkite_pipeline_slug", .str b.buildkitePipelineSlug, false⟩,
     ⟨":buildkite_project_slug", .str b.buildkiteProjectSlug, false⟩,
     ⟨":buildkite_pull_request_base_branch", .str b.buildkitePullRequestBaseBranch, true⟩,
     ⟨":buildkite_pull_request_number", .nat b.buildkitePullRequestNumber, true⟩,
     ⟨":buildkite_pull_request_repo", .str b.buildkitePullRequestRepo, true⟩,
     ⟨":buildkite_rebuilt_from_build_id", .str b.buildkiteRebuiltFromBuildID, true⟩,
     ⟨":buildkite_rebuilt_from_build_number", .nat b.buildkiteRebuiltFromBuildNumber, true⟩,
     ⟨":buildkite_retry_count", .nat b.buildkiteRetryCount, false⟩,
     ⟨":buildkite_tag", .str b.buildkiteTag, true⟩]
  | .circleci c =>
    [⟨":circle_build_num", .nat c.circleBuildNumber, false⟩,
     ⟨":circle_job", .str c.circleJob, false⟩,
     ⟨":circle_pr_number", .nat c.circlePullRequestNumber, true⟩,
     ⟨":circle_pr_reponame", .str c.circlePullRequestReponame, true⟩,
     ⟨":circle_pull_request", .str c.circlePullRequestURL, true⟩,
     ⟨":circle_pr_username", .str c.circlePullRequestUsername, true⟩,
     ⟨":circle_repository_url", .str c.circleRepoURL, false⟩,
     ⟨":circle_tag", .str c.circleTag, true⟩,
     ⟨":circle_username", .str c.circleUsername, false⟩,
     ⟨":circle_workflow_id", .str c.circleWorkflowID, false⟩]
  | .githubActions g =>
    [⟨":github_actor", .str g.githubActor, false⟩,
     ⟨":github_base_ref", .str g.githubBaseRef, false⟩,
     ⟨":github_event_name", .str g.githubEventName, false⟩,
     ⟨":github_head_ref", .str g.githubHeadRef, false⟩,
     ⟨":github_ref", .str g.githubRef, false⟩,
     ⟨":github_repo_url", .str g.githubRepoURL, false⟩,
     ⟨":github_run_attempt", .nat g.githubRunAttempt, false⟩,
     ⟨":github_run_id", .nat g.githubRunID, false⟩,
     ⟨":github_run_number", .nat g.githubRunNumber, false⟩,
     ⟨":github_workflow", .str g.githubWorkflow, false⟩]
  | .jenkins j =>
    [⟨":jenkins_executor_number", .nat j.jenkinsExecutorNumber, false⟩,
     ⟨":jenkins_job_name", .str j.jenkinsJobName, false⟩,
     ⟨":jenkins_job_url", .str j.jenkinsJobURL, false⟩,
     ⟨":jenkins_node_name", .str j.jenkinsNodeName, false⟩,
     ⟨":jenkins_workspace", .str j.jenkinsWorkspace, false⟩]
  | .semaphore s =>
    [⟨":semaphore_agent_machine_environment_type",
        .str s.semaphoreAgentMachineEnvironmentType, false⟩,
     ⟨":semaphore_agent_machine_os_image", .str s.semaphoreAgentMachineOsImage, false⟩,
     ⟨":semaphore_agent_machine_type", .str s.semaphoreAgentMachineType, false⟩,
     ⟨":semaphore_git_commit_range", .str s.semaphoreGitCommitRange, false⟩,
     ⟨":semaphore_git_dir", .str s.semaphoreGitDir, false⟩,
     ⟨":semaphore_git_ref", .str s.semaphoreGitRef, false⟩,
     ⟨":semaphore_git_ref_type", .str s.semaphoreGitRefType, false⟩,
     ⟨":semaphore_git_url", .str s.semaphoreGitURL, false⟩,
     ⟨":semaphore_job_id", .str s.semaphoreJobID, false⟩,
     ⟨":semaphore_job_name", .str s.semaphoreJobName, false⟩,
     ⟨":semaphore_job_result", .str s.semaphoreJobResult, false⟩,
     ⟨":semaphore_organization_url", .str s.semaphoreOrganizationURL, false⟩,
     ⟨":semaphore_project_id", .str s.semaphoreProjectID, false⟩,
     ⟨":semaphore_project_name", .str s.semaphoreProjectName, false⟩,
     ⟨":semaphore_workflow_id", .str s.semaphoreWorkflowID, false⟩,
     ⟨":semaphore_workflow_number", .nat s.semaphoreWorkflowNumber, false⟩]
  | .travis t =>
    [⟨":travis_build_dir", .str t.travisBuildDir, false⟩,
     ⟨":travis_build_id", .nat t.travisBuildID, false⟩,
     ⟨":travis_build_number", .nat t.travisBuildNumber, false⟩,
     ⟨":travis_build_web_url", .str t.travisBuildWebURL, false⟩,
     ⟨":travis_commit_range", .str t.travisCommitRange, false⟩,
     ⟨":travis_cpu_arch", .str t.travisCPUArch, false⟩,
     ⟨":travis_dist", .str t.travisDist, false⟩,
     ⟨":travis_event_type", .str t.travisEventType, false⟩,
     ⟨":travis_job_id", .nat t.travisJobID, false⟩,
     ⟨":travis_job_name", .str t.travisJobName, false⟩,
     ⟨":travis_job_number", .str t.travisJobNumber, false⟩,
     ⟨":travis_os_name", .str t.travisOsName, false⟩,
     ⟨":travis_pull_request_branch", .str t.travisPullRequestBranch, true⟩,
     ⟨":travis_pull_request_number", .nat t.travisPullRequestNumber, true⟩,
     ⟨":travis_pull_request_sha", .str t.travisPullRequestSha, true⟩,
     ⟨":travis_pull_request_slug", .str t.travisPullRequestSlug, true⟩,
     ⟨":travis_sudo", .bool t.travisSudo, false⟩,
     ⟨":travis_tag", .str t.travisTag, false⟩,
     ⟨":travis_test_result", .nat t.travisTestResult, false⟩]
  | .webappio w =>
    [⟨":pull_request_url", .str w.pullRequestURL, true⟩,
     ⟨":retry_index", .nat w.retryIndex, false⟩]
  | .awsCodeBuild a =>
    [⟨":aws_default_region", .str a.awsDefaultRegion, true⟩,
     ⟨":aws_region", .str a.awsRegion, true⟩,
     ⟨":codebuild_batch_build_identifier", .str a.codebuildBatchBuildIdentifier, true⟩,
     ⟨":codebuild_build_arn", .str a.codebuildBuildARN, true⟩,
     ⟨":codebuild_build_id", .str a.codebuildBuildID, true⟩,
     ⟨":codebuild_build_image", .str a.codebuildBuildImage, true⟩,
     ⟨":codebuild_build_number", .nat a.codebuildBuildNumber, true⟩,
     ⟨":codebuild_build_succeeding", .nat a.codebuildBuildSucceeding, true⟩,
     ⟨":codebuild_initiator", .str a.codebuildInitiator, true⟩,
     ⟨":codebuild_kms_key_id", .str a.codebuildKmsKeyID, true⟩,
     ⟨":codebuild_log_path", .str a.codebuildLogPath, true⟩,
     ⟨":codebuild_public_build_url", .str a.codebuildPublicBuildURL, false⟩,
     ⟨":codebuild_resolved_source_version", .str a.codebuildResolvedSourceVersion, false⟩,
     ⟨":codebuild_source_repo_url", .str a.codebuildSourceRepoURL, true⟩,
     ⟨":codebuild_source_version", .str a.codebuildSourceVersion, false⟩,
     ⟨":codebuild_src_dir", .str a.codebuildSrcDir, true⟩,
     ⟨":codebuild_start_time", .str a.codebuildStartTime, true⟩,
     ⟨":codebuild_webhook_actor_account_id", .str a.codebuildWebhookActorAccountID, true⟩,
     ⟨":codebuild_webhook_base_ref", .str a.codebuildWebhookBaseRef, true⟩,
     ⟨":codebuild_webhook_event", .str a.codebuildWebhookEvent, true⟩,
     ⟨":codebuild_webhook_merge_commit", .str a.codebuildWebhookMergeCommit, true⟩,
     ⟨":codebuild_webhook_prev_commit", .str a.codebuildWebhookPrevCommit, true⟩,
     ⟨":codebuild_webhook_head_ref", .str a.codebuildWebhookHeadRef, true⟩,
     ⟨":codebuild_webhook_trigger", .str a.codebuildWebhookTrigger, true⟩]
  | .bitbucket b =>
    [⟨":bitbucket_build_number", .nat b.bitbucketBuildNumber, false⟩,
     ⟨":bitbucket_clone_dir", .str b.bitbucketCloneDir, true⟩,
     ⟨":bitbucket_commit", .str b.bitbucketCommit, false⟩,
     ⟨":bitbucket_workspace", .str b.bitbucketWorkspace, false⟩,
     ⟨":bitbucket_repo_slug", .str b.bitbucketRepoSlug, false⟩,
     ⟨":bitbucket_repo_uuid", .str b.bitbucketRepoUUID, true⟩,
     ⟨":bitbucket_repo_full_name", .str b.bitbucketRepoFullName, true⟩,
     ⟨":bitbucket_branch", .str b.bitbucketBranch, false⟩,
     ⟨":bitbucket_tag", .str b.bitbucketTag, true⟩,
     ⟨":bitbucket_bookmark", .str b.bitbucketBookmark, true⟩,
     ⟨":bitbucket_parallel_step", .str b.bitbucketParallelStep, true⟩,
     ⟨":bitbucket_parallel_step_count", .str b.bitbucketParallelStepCount, true⟩,
     ⟨":bitbucket_pr_id", .str b.bitbucketPrID, true⟩,
     ⟨":bitbucket_pr_destination_branch", .str b.bitbucketPrDestinationBranch, true⟩,
     ⟨":bitbucket_git_http_origin", .str b.bitbucketGitHTTPOrigin, false⟩,
     ⟨":bitbucket_git_ssh_origin", .str b.bitbucketGitSSHOrigin, true⟩,
     ⟨":bitbucket_exit_code", .str b.bitbucketExitCode, true⟩,
     ⟨":bitbucket_step_uuid", .str b.bitbucketStepUUID, true⟩,
     ⟨":bitbucket_pipeline_uuid", .str b.bitbucketPipelineUUID, true⟩,
     ⟨":bitbucket_deployment_environment", .str b.bitbucketDeploymentEnvironment, true⟩,
     ⟨":bitbucket_deployment_environment_uuid",
        .str b.bitbucketDeploymentEnvironmentUUID, true⟩,
     ⟨":bitbucket_project_key", .str b.bitbucketProjectKey, true⟩,
     ⟨":bitbucket_project_uuid", .str b.bitbucketProjectUUID, true⟩,
     ⟨":bitbucket_step_triggerer_uuid", .str b.bitbucketStepTriggererUUID, true⟩,
     ⟨":bitbucket_step_oidc_token", .str b.bitbucketStepOIDCToken, true⟩,
     ⟨":bitbucket_ssh_key_file", .str b.bitbucketSSHKeyFile, true⟩]
  | .azurePipelines a =>
    [⟨":build_buildid", .str a.buildID, true⟩,
     ⟨":build_buildnumber", .str a.buildNumber, true⟩,
     ⟨":build_builduri", .str a.buildURI, false⟩,
     ⟨":build_binariesdirectory", .str a.binariesDirectory, true⟩,
     ⟨":build_containerid", .str a.containerID, true⟩,
     ⟨":build_definitionname", .str a.definitionName, true⟩,
     ⟨":build_definitionversion", .str a.definitionVersion, true⟩,
     ⟨":build_queuedby", .str a.queuedBy, true⟩,
     ⟨":build_queuedbyid", .str a.queuedByID, true⟩,
     ⟨":build_reason", .str a.reason, true⟩,
     ⟨":build_repository_clean", .str a.repositoryClean, true⟩,
     ⟨":build_repository_localpath", .str a.repositoryLocalpath, true⟩,
     ⟨":build_repository_id", .str a.repositoryID, true⟩,
     ⟨":build_repository_name", .str a.repositoryName, false⟩,
     ⟨":build_repository_provider", .str a.repositoryProvider, true⟩,
     ⟨":build_repository_tfvc_workspace", .str a.repositoryTFVCWorkspace, true⟩,
     ⟨":build_repository_uri", .str a.repositoryURI, true⟩,
     ⟨":build_requestedforemail", .str a.requestedForEmail, true⟩,
     ⟨":build_requestedforid", .str a.requestedForID, true⟩,
     ⟨":build_sourcebranch", .str a.sourceBranch, true⟩,
     ⟨":build_sourcebranchname", .str a.sourceBranchName, false⟩,
     ⟨":build_sourcesdirectory", .str a.sourcesDirectory, true⟩,
     ⟨":build_sourceversion", .str a.sourceVersion, false⟩,
     ⟨":build_sourceversionmessage", .str a.sourceVersionMessage, true⟩,
     ⟨":build_stagingdirectory", .str a.stagingDirectory, true⟩,
     ⟨":build_repository_git_submodulecheckout",
        .str a.repositoryGitSubmoduleCheckout, true⟩,
     ⟨":build_sourcetfvcshelveset", .str a.sourceTFVCShelveSet, true⟩,
     ⟨":system_teamfoundationcollectionuri", .str a.teamFoundationCollectionURI, false⟩,
     ⟨":build_triggeredby_buildid", .str a.triggeredByBuildID, true⟩,
     ⟨":build_triggeredby_definitionid", .str a.triggeredByDefinitionID, true⟩,
     ⟨":build_triggeredby_definitionname", .str a.triggeredByDefinitionName, true⟩,
     ⟨":build_triggeredby_buildnumber", .str a.triggeredByBuildNumber, true⟩,
     ⟨":build_triggeredby_projectid", .str a.triggeredByProjectID, true⟩]
  | .custom c =>
    [⟨":git_branch", .str c.gitBranch, false⟩,
     ⟨":git_commit", .str c.gitCommit, false⟩,
     ⟨":build_url", .str c.buildURI, false⟩,
     ⟨":organization_name", .str c.organizationName, false⟩,
     ⟨":repository_name", .str c.repositoryName, false⟩]

/-- `Metadata.MarshalYAML` (metadata.go:124-136): serialize the universal
fields, serialize the provider-specific fields, and return the
concatenation of the two byte blocks. -/
def MarshalYAML (m : Metadata) : String :=
  yamlMarshal (metadataYamlFields m) ++ yamlMarshal (providerYamlFields m.providerData)

/-! ### Specification-side definitions and concrete fixtures

`detectionSpecTable`/`detectFirstMatch` restate the spec's description of
provider detection ("evaluation order is fixed and first-match-wins") for
comparison with `detectProviderKind`, which was translated from the code.
The remaining definitions are concrete inputs used by witness theorems. -/

/-- The detection priority list exactly as the spec words it: each entry is
a trigger predicate paired with the provider it selects, in the spec's
fixed order; `custom` is the fallback when no entry matches. -/
def detectionSpecTable : List ((Env → Bool) × ProviderKind) :=
  [(fun e => decide (envGetD e "BUILDKITE" = "true"), .buildkite),
   (fun e => decide (envGetD e "CIRCLECI" = "true"), .circleci),
   (fun e => decide (envGetD e "GITHUB_ACTIONS" = "true"), .githubActions),
   (fun e => decide (envGetD e "JENKINS_HOME" ≠ ""), .jenkins),
   (fun e => decide (envGetD e "SEMAPHORE" = "true"), .semaphore),
   (fun e => decide (envGetD e "TRAVIS" = "true"), .travis),
   (fun e => decide (envGetD e "WEBAPPIO" = "true"), .webappio),
   (fun e => decide (envGetD e "CODEBUILD_BUILD_ID" ≠ ""), .awsCodeBuild),
   (fun e => decide (envGetD e "BITBUCKET_BUILD_NUMBER" ≠ ""), .bitbucket),
   (fun e => decide (envGetD e "BUILD_BUILDID" ≠ ""), .azurePipelines)]

/-- First-match-wins detection as the spec words it. -/
def detectFirstMatch (envs : Env) : ProviderKind :=
  ((detectionSpecTable.find? (fun p => p.1 envs)).map Prod.snd).getD .custom

/-- Extract the value of a successful `Outcome`. -/
def outcomeOkD [Inhabited α] : Outcome α → α
  | .ok a => a
  | .err _ => default
  | .abort => default

/-- Extract the value of a successful `Except`. -/
def exceptOkD [Inhabited α] : Except String α → α
  | .ok a => a
  | .error _ => default

/-- Did an `Except`-returning `Init` succeed? -/
def exceptIsOk : Except ε α → Bool
  | .ok _ => true
  | .error _ => false

/-- A commit resolver whose lookup always fails (the stub the repository's
own commit-lookup-failure test uses). -/
def failingResolver : CommitResolver where
  lookup := fun _ => .error "commit lookup failed"
  source := "Static"

/-- A GitHub Actions pull-request environment: head ref `feature-x`, merge
ref `refs/pull/3/merge`. -/
def ghPrEnv : Env :=
  [("GITHUB_ACTIONS", "true"),
   ("GITHUB_EVENT_NAME", "pull_request"),
   ("GITHUB_HEAD_REF", "feature-x"),
   ("GITHUB_REF", "refs/pull/3/merge"),
   ("GITHUB_REPOSITORY", "some-owner/some-repo"),
   ("GITHUB_RUN_ATTEMPT", "1"),
   ("GITHUB_RUN_ID", "8675309"),
   ("GITHUB_RUN_NUMBER", "42"),
   ("GITHUB_SHA", "1f192ff735f887dd7a25229b2ece0422d17931f5")]

/-- The provider data produced from `ghPrEnv`. -/
def ghPrProvider : ProviderData := exceptOkD (newProviderMetadata ghPrEnv)

/-- The GitHub record produced from `ghPrEnv`. -/
def ghPrGithub : GithubMetadata := exceptOkD (githubInit ghPrEnv)

/-- The metadata produced from `ghPrEnv` with the failing resolver. -/
def ghPrMetadata : Metadata :=
  outcomeOkD (NewMetadata ⟨"", "v1.2.3", "linux", ""⟩ ghPrEnv [] "" failingResolver 7)

/-- A GitHub Actions environment carrying a non-empty
`BUILDPULSE_CHECK_NAME`. -/
def checkNameEnv : Env :=
  [("BUILDPULSE_CHECK_NAME", "some-custom-check-name"), ("GITHUB_ACTIONS", "true")]

/-- The metadata produced from `checkNameEnv`. -/
def checkNameMetadata : Metadata :=
  outcomeOkD (NewMetadata ⟨"", "", "", ""⟩ checkNameEnv [] "" failingResolver 0)

/-- A Buildkite environment whose pull-request variable is the non-numeric
`"false"`. -/
def bkFalsePrEnv : Env :=
  [("BUILDKITE", "true"),
   ("BUILDKITE_COMMIT", "1f192ff735f887dd7a25229b2ece0422d17931f5"),
   ("BUILDKITE_PULL_REQUEST", "false"),
   ("BUILDKITE_REPO", "git@github.com:some-owner/some-repo.git")]

/-- The Buildkite record produced from `bkFalsePrEnv`. -/
def bkFalsePrData : BuildkiteMetadata := exceptOkD (buildkiteInit bkFalsePrEnv)

/-- A Travis environment whose pull-request variable is numeric. -/
def travisPrEnv : Env :=
  [("TRAVIS", "true"),
   ("TRAVIS_COMMIT", "1f192ff735f887dd7a25229b2ece0422d17931f5"),
   ("TRAVIS_PULL_REQUEST", "42")]

/-- The Travis record produced from `travisPrEnv`. -/
def travisPrData : TravisMetadata := exceptOkD (travisInit travisPrEnv)

/-- A GitHub Actions environment with no `GITHUB_SERVER_URL`. -/
def ghNoServerEnv : Env :=
  [("GITHUB_ACTIONS", "true"),
   ("GITHUB_REPOSITORY", "some-owner/some-repo"),
   ("GITHUB_RUN_ATTEMPT", "1"),
   ("GITHUB_RUN_ID", "8675309")]

/-- The GitHub record produced from `ghNoServerEnv`. -/
def ghNoServerData : GithubMetadata := exceptOkD (githubInit ghNoServerEnv)

/-- The aws-codebuild environment whose public build URL has a path with
fewer than three `/`-separated segments. -/
def awsShortURLEnv : Env :=
  [("CODEBUILD_BUILD_ID", "codebuild-demo-project:b1e6661e"),
   ("CODEBUILD_PUBLIC_BUILD_URL", "https://example.com")]

/-- A metadata fixture for the serializer claims: tags `["tag1", "tag2"]`,
no quota ID, zero/absent optional commit fields. -/
def tagsMetadata : Metadata :=
  outcomeOkD (NewMetadata ⟨"", "v1.2.3", "linux", ""⟩ ghPrEnv ["tag1", "tag2"] ""
    failingResolver 7)

/-- The full aggregated error message for the empty environment, exactly as
the repository's own test asserts it. -/
def customFallbackError : String :=
  "env: environment variable \"GIT_BRANCH\" should not be empty; " ++
  "environment variable \"GIT_COMMIT\" should not be empty; " ++
  "environment variable \"BUILD_URL\" should not be empty; " ++
  "environment variable \"ORGANIZATION_NAME\" should not be empty; " ++
  "environment variable \"REPOSITORY_NAME\" should not be empty"

/-! ## Shared helper lemmas -/

/-- Reading a key from an environment extended at the front with a
different key is unchanged. -/
theorem envGetD_cons_ne (k v key : String) (e : Env) (h : k ≠ key) :
    envGetD ((k, v) :: e) key = envGetD e key := by
  simp [envGetD, envGet?, h]

/-- `buildkiteMetadata.Init` succeeds exactly when the `env` binding
reports no errors and the repo-URL parse succeeds. -/
theorem buildkiteInit_isOk_eq (envs : Env) :
    exceptIsOk (buildkiteInit envs) =
      (decide (buildkiteEnvErrors envs = []) &&
       exceptIsOk (nameWithOwnerFromGitURL (envGetD envs "BUILDKITE_REPO"))) := by
  unfold buildkiteInit
  split
  · rename_i h
    simp [h, exceptIsOk]
  · rename_i h
    simp only [ne_eq, not_not] at h
    cases hn : nameWithOwnerFromGitURL (envGetD envs "BUILDKITE_REPO") <;>
      simp [h, exceptIsOk]

/-- The Buildkite `env` errors ignore the pull-request variable. -/
theorem buildkiteEnvErrors_pr (envs : Env) (v : String) :
    buildkiteEnvErrors (("BUILDKITE_PULL_REQUEST", v) :: envs) =
      buildkiteEnvErrors envs := by
  unfold buildkiteEnvErrors uintFieldError
  rw [envGetD_cons_ne "BUILDKITE_PULL_REQUEST" v "BUILDKITE_BUILD_NUMBER" envs (by decide),
    envGetD_cons_ne "BUILDKITE_PULL_REQUEST" v "BUILDKITE_REBUILT_FROM_BUILD_NUMBER" envs
      (by decide),
    envGetD_cons_ne "BUILDKITE_PULL_REQUEST" v "BUILDKITE_RETRY_COUNT" envs (by decide)]

/-- `travisMetadata.Init` succeeds exactly when the `env` binding reports
no errors. -/
theorem travisInit_isOk_eq (envs : Env) :
    exceptIsOk (travisInit envs) = decide (travisEnvErrors envs = []) := by
  unfold travisInit
  split
  · rename_i h
    simp [h, exceptIsOk]
  · rename_i h
    simp only [ne_eq, not_not] at h
    simp [h, exceptIsOk]

/-- The Travis `env` errors ignore the pull-request variable. -/
theorem travisEnvErrors_pr (envs : Env) (v : String) :
    travisEnvErrors (("TRAVIS_PULL_REQUEST", v) :: envs) = travisEnvErrors envs := by
  unfold travisEnvErrors uintFieldError boolFieldError
  rw [envGetD_cons_ne "TRAVIS_PULL_REQUEST" v "TRAVIS_BUILD_ID" envs (by decide),
    envGetD_cons_ne "TRAVIS_PULL_REQUEST" v "TRAVIS_BUILD_NUMBER" envs (by decide),
    envGetD_cons_ne "TRAVIS_PULL_REQUEST" v "TRAVIS_JOB_ID" envs (by decide),
    envGetD_cons_ne "TRAVIS_PULL_REQUEST" v "TRAVIS_SUDO" envs (by decide),
    envGetD_cons_ne "TRAVIS_PULL_REQUEST" v "TRAVIS_TEST_RESULT" envs (by decide)]

/-- A field suppressed by `omitempty` contributes no key to the document,
provided the field list has pairwise-distinct keys. -/
theorem key_not_emitted {fields : List YamlField} {f : YamlField}
    (hf : f ∈ fields) (ho : f.omitempty = true) (hz : f.value.isZero = true)
    (hn : (fields.map YamlField.key).Nodup) : f.key ∉ emittedKeys fields := by
  intro hmem
  unfold emittedKeys at hmem
  rw [List.mem_map] at hmem
  obtain ⟨g, hg, hkey⟩ := hmem
  rw [List.mem_filter] at hg
  obtain ⟨hgf, hemit⟩ := hg
  have hge : g = f := List.inj_on_of_nodup_map hn hgf hf hkey
  subst hge
  simp [emitYamlField, ho, hz] at hemit

/-- The universal block's keys are pairwise distinct. -/
theorem metadata_keys_nodup (m : Metadata) :
    ((metadataYamlFields m).map YamlField.key).Nodup := by
  simp only [metadataYamlFields, List.map]
  decide

/-! ## Claim theorems -/

/-- C2: for every GitHub Actions environment on which `Init` succeeds, the
derived branch is the head ref when the triggering event is
`pull_request` (even when the ref is a merge ref), the ref with the
`refs/heads/` prefix stripped when the ref lies in the heads namespace,
and the empty string otherwise (tag refs, other refs, or an absent
`GITHUB_REF`). -/
theorem github_branch_resolution (envs : Env) (g : GithubMetadata)
    (h : githubInit envs = .ok g) :
    g.branch =
      if envGetD envs "GITHUB_EVENT_NAME" = "pull_request" then
        envGetD envs "GITHUB_HEAD_REF"
      else if goHasLeading (envGetD envs "GITHUB_REF") "refs/heads/" then
        goTrimLeading (envGetD envs "GITHUB_REF") "refs/heads/"
      else "" := by
  unfold githubInit at h
  split at h
  · exact absurd h (by simp)
  · cases h
    rfl

/-- Witness for C2: on the pull-request environment with
`GITHUB_HEAD_REF=feature-x` and merge ref `refs/pull/3/merge`, the branch
is `feature-x`. -/
theorem github_branch_resolution_witness :
    githubInit ghPrEnv = .ok ghPrGithub ∧ ghPrGithub.branch = "feature-x" :=
  ⟨by decide, (github_branch_resolution ghPrEnv ghPrGithub (by decide)).trans (by decide)⟩

set_option maxHeartbeats 2000000 in
/-- C3: provider detection is the first-match-wins scan of the fixed
priority table (Buildkite, CircleCI, GitHub Actions, Jenkins, Semaphore,
Travis, webapp.io, AWS CodeBuild, Bitbucket, Azure Pipelines, then the
custom fallback); in particular any environment with both
`BUILDKITE="true"` and `CIRCLECI="true"` selects Buildkite. -/
theorem detection_first_match_wins :
    (∀ envs : Env, detectProviderKind envs = detectFirstMatch envs) ∧
    (∀ envs : Env, envGetD envs "BUILDKITE" = "true" →
      envGetD envs "CIRCLECI" = "true" → detectProviderKind envs = .buildkite) := by
  constructor
  · intro envs
    unfold detectProviderKind detectFirstMatch detectionSpecTable
    simp only [List.find?]
    split_ifs <;> simp_all
  · intro envs h1 _
    simp [detectProviderKind, h1]

/-- Witness for C3: the two-trigger environment selects Buildkite. -/
theorem detection_first_match_wins_witness :
    detectProviderKind [("BUILDKITE", "true"), ("CIRCLECI", "true")] = .buildkite :=
  detection_first_match_wins.2 [("BUILDKITE", "true"), ("CIRCLECI", "true")]
    (by decide) (by decide)

/-- C6: name-with-owner extraction maps the https form and the ssh form to
the same `owner/repo` with the `.git` suffix stripped, and for every input
on which the `github.com[:/]` pattern finds no match it returns an error
whose message ends with (hence includes) the unparsable URL. -/
theorem name_with_owner_extraction :
    nameWithOwnerFromGitURL "https://github.com/o/r.git" = .ok "o/r" ∧
    nameWithOwnerFromGitURL "git@github.com:o/r.git" = .ok "o/r" ∧
    ∀ url : String, githubScan url.toList = none →
      nameWithOwnerFromGitURL url =
        .error ("unable to extract repository name-with-owner from URL: " ++ url) ∧
      url.toList <:+
        ("unable to extract repository name-with-owner from URL: " ++ url).toList := by
  refine ⟨by decide, by decide, fun url h => ⟨?_, ?_⟩⟩
  · unfold nameWithOwnerFromGitURL
    rw [h]
  · exact ⟨"unable to extract repository name-with-owner from URL: ".toList,
      by simp [String.toList]⟩

/-- Witness for C6: `"some-malformed-url"` matches nowhere and produces the
error naming it. -/
theorem name_with_owner_extraction_witness :
    githubScan "some-malformed-url".toList = none ∧
    nameWithOwnerFromGitURL "some-malformed-url" =
      .error "unable to extract repository name-with-owner from URL: some-malformed-url" :=
  ⟨by decide,
   ((name_with_owner_extraction.2.2 "some-malformed-url" (by decide)).1).trans (by decide)⟩

/-- C7 (code bug): on an aws-codebuild environment whose public build URL
parses to a path with fewer than three `/`-separated segments, the
unchecked `splits[1]`/`splits[2]` indexing in `RepoNameWithOwner` aborts
the whole run (modelled as `Outcome.abort`) instead of degrading the one
field: `NewMetadata` produces no record at all. -/
theorem aws_short_url_aborts :
    detectProviderKind awsShortURLEnv = .awsCodeBuild ∧
    awsRepoNameWithOwner "https://example.com" = none ∧
    NewMetadata ⟨"", "", "", ""⟩ awsShortURLEnv [] "" failingResolver 0 = .abort :=
  ⟨by decide, by decide, by decide⟩

/-- C10: when `GITHUB_SERVER_URL` is unset or empty, `Init` substitutes
`https://github.com`, so the repo URL is `https://github.com/` followed by
`GITHUB_REPOSITORY`, and the build URL is formed from that repo URL. -/
theorem github_server_url_default (envs : Env) (g : GithubMetadata)
    (h : githubInit envs = .ok g) (hsrv : envGetD envs "GITHUB_SERVER_URL" = "") :
    g.githubRepoURL = "https://github.com/" ++ envGetD envs "GITHUB_REPOSITORY" ∧
    g.buildURL = g.githubRepoURL ++ "/actions/runs/" ++ toString g.githubRunID ++
      "/attempts/" ++ toString g.githubRunAttempt := by
  unfold githubInit at h
  split at h
  · exact absurd h (by simp)
  · cases h
    refine ⟨?_, rfl⟩
    simp [hsrv]

/-- Witness for C10: the serverless environment yields the default-based
repo URL and build URL. -/
theorem github_server_url_default_witness :
    ghNoServerData.githubRepoURL = "https://github.com/some-owner/some-repo" ∧
    ghNoServerData.buildURL =
      "https://github.com/some-owner/some-repo/actions/runs/8675309/attempts/1" := by
  have h := github_server_url_default ghNoServerEnv ghNoServerData (by decide) (by decide)
  exact ⟨h.1.trans (by decide), h.2.trans (by decide)⟩

/-- C1: whenever a provider is detected and initialized and the resolver's
lookup of the provider's commit SHA fails, `NewMetadata` still returns a
record (no error) whose `CommitSHA` is the raw provider SHA, whose other
commit fields (authored-at, author email/name, message, committed-at,
committer email/name, tree SHA) are all empty/zero, and whose
`CommitMetadataSource` is the resolver's `Source()`; moreover whatever the
lookup outcome, any returned record carries the resolver's source label. -/
theorem commit_lookup_failure_degrades (version : Version) (envs : Env)
    (tags : List String) (quotaID : String) (resolver : CommitResolver)
    (now : GoTime) (pd : ProviderData) (nwo : String)
    (hpd : newProviderMetadata envs = .ok pd)
    (hnwo : pd.repoNameWithOwner? = some nwo) :
    (∀ e : String, resolver.lookup pd.commitSHA = .error e →
      NewMetadata version envs tags quotaID resolver now = .ok
        { authoredAt := 0, authorEmail := "", authorName := "",
          branch := pd.branch, buildURL := pd.buildURL,
          check := match envGet? envs "BUILDPULSE_CHECK_NAME" with
            | some c => if c ≠ "" then c else pd.name
            | none => pd.name,
          ciProvider := pd.name, commitMessage := "",
          commitMetadataSource := resolver.source, commitSHA := pd.commitSHA,
          committedAt := 0, committerEmail := "", committerName := "",
          quotaID := quotaID, repoNameWithOwner := nwo,
          reporterOS := version.goOS, reporterVersion := version.number,
          tags := tags, timestamp := now, treeSHA := "", providerData := pd }) ∧
    (∀ m : Metadata, NewMetadata version envs tags quotaID resolver now = .ok m →
      m.commitMetadataSource = resolver.source) := by
  constructor
  · intro e he
    unfold NewMetadata
    simp only [hpd, hnwo, initCommitData, he]
  · intro m hm
    unfold NewMetadata at hm
    simp only [hpd, hnwo, initCommitData] at hm
    cases hlk : resolver.lookup pd.commitSHA with
    | error e =>
      simp only [hlk] at hm
      cases hm
      rfl
    | ok c =>
      simp only [hlk] at hm
      cases hm
      rfl

/-- Witness for C1: the GitHub environment with an always-failing resolver
yields a record carrying the raw SHA, the `Static` source label, and empty
commit fields. -/
theorem commit_lookup_failure_degrades_witness :
    ghPrMetadata.commitSHA = "1f192ff735f887dd7a25229b2ece0422d17931f5" ∧
    ghPrMetadata.commitMetadataSource = "Static" ∧
    ghPrMetadata.authorName = "" ∧ ghPrMetadata.treeSHA = "" := by
  have h := (commit_lookup_failure_degrades ⟨"", "v1.2.3", "linux", ""⟩ ghPrEnv [] ""
    failingResolver 7 ghPrProvider "some-owner/some-repo" (by decide) (by decide)).1
    "commit lookup failed" (by decide)
  refine ⟨?_, ?_, ?_, ?_⟩ <;> simp only [ghPrMetadata, h, outcomeOkD] <;> decide

set_option maxRecDepth 40000 in
/-- C4: on the empty environment, `NewMetadata` fails with the aggregated
`env` error that lists, joined by `"; "`, one missing-variable message for
each of the five required custom-fallback variables (git branch, git
commit, build URL, organization name, repository name). -/
theorem custom_fallback_empty_env (version : Version) (tags : List String)
    (quotaID : String) (resolver : CommitResolver) (now : GoTime) :
    NewMetadata version [] tags quotaID resolver now = .err customFallbackError ∧
    customFallbackError = envAggregateError
      ["environment variable \"GIT_BRANCH\" should not be empty",
       "environment variable \"GIT_COMMIT\" should not be empty",
       "environment variable \"BUILD_URL\" should not be empty",
       "environment variable \"ORGANIZATION_NAME\" should not be empty",
       "environment variable \"REPOSITORY_NAME\" should not be empty"] ∧
    goContains customFallbackError "GIT_BRANCH" = true ∧
    goContains customFallbackError "GIT_COMMIT" = true ∧
    goContains customFallbackError "BUILD_URL" = true ∧
    goContains customFallbackError "ORGANIZATION_NAME" = true ∧
    goContains customFallbackError "REPOSITORY_NAME" = true := by
  have hp : newProviderMetadata [] = .error customFallbackError := by decide
  refine ⟨?_, by decide, by decide, by decide, by decide, by decide, by decide⟩
  unfold NewMetadata
  rw [hp]

/-- C5: any record `NewMetadata` returns carries, as its `Check` field, the
value of `BUILDPULSE_CHECK_NAME` when that variable is present and
non-empty, and the provider's `Name()` (the record's `CIProvider`)
otherwise — an empty value behaves exactly like an absent one. -/
theorem check_name_precedence (version : Version) (envs : Env) (tags : List String)
    (quotaID : String) (resolver : CommitResolver) (now : GoTime) (m : Metadata)
    (h : NewMetadata version envs tags quotaID resolver now = .ok m) :
    m.check = if envGetD envs "BUILDPULSE_CHECK_NAME" ≠ "" then
        envGetD envs "BUILDPULSE_CHECK_NAME"
      else m.ciProvider := by
  unfold NewMetadata at h
  cases hpd : newProviderMetadata envs with
  | error e =>
    simp only [hpd] at h
    exact Outcome.noConfusion h
  | ok pd =>
    simp only [hpd] at h
    cases hnwo : pd.repoNameWithOwner? with
    | none =>
      simp only [hnwo] at h
      exact Outcome.noConfusion h
    | some nwo =>
      simp only [hnwo, initCommitData] at h
      cases hlk : resolver.lookup pd.commitSHA with
      | error e =>
        simp only [hlk] at h
        cases h
        cases hbp : envGet? envs "BUILDPULSE_CHECK_NAME" <;> simp [envGetD, hbp]
      | ok c =>
        simp only [hlk] at h
        cases h
        cases hbp : envGet? envs "BUILDPULSE_CHECK_NAME" <;> simp [envGetD, hbp]

/-- Witness for C5: a present non-empty `BUILDPULSE_CHECK_NAME` overrides
the provider name. -/
theorem check_name_precedence_witness :
    checkNameMetadata.check = "some-custom-check-name" := by
  have h := check_name_precedence ⟨"", "", "", ""⟩ checkNameEnv [] "" failingResolver 0
    checkNameMetadata (by decide)
  exact h.trans (by decide)

/-- C8: for Buildkite and Travis, the derived pull-request-number field is
the base-autodetected `ParseUint` value of the string pull-request variable
when that parse succeeds and stays at zero when the variable is absent,
empty, or non-numeric; and the success of `Init` never depends on that
variable's value (no parse error is propagated for this field). -/
theorem pull_request_number_parsing :
    (∀ (envs : Env) (b : BuildkiteMetadata), buildkiteInit envs = .ok b →
      b.buildkitePullRequestNumber =
        (goParseUint0 (envGetD envs "BUILDKITE_PULL_REQUEST")).getD 0) ∧
    (∀ (envs : Env) (t : TravisMetadata), travisInit envs = .ok t →
      t.travisPullRequestNumber =
        (goParseUint0 (envGetD envs "TRAVIS_PULL_REQUEST")).getD 0) ∧
    (∀ (envs : Env) (v w : String),
      exceptIsOk (buildkiteInit (("BUILDKITE_PULL_REQUEST", v) :: envs)) =
      exceptIsOk (buildkiteInit (("BUILDKITE_PULL_REQUEST", w) :: envs))) ∧
    (∀ (envs : Env) (v w : String),
      exceptIsOk (travisInit (("TRAVIS_PULL_REQUEST", v) :: envs)) =
      exceptIsOk (travisInit (("TRAVIS_PULL_REQUEST", w) :: envs))) := by
  refine ⟨?_, ?_, ?_, ?_⟩
  · intro envs b h
    unfold buildkiteInit at h
    split at h
    · exact absurd h (by simp)
    · split at h
      · exact absurd h (by simp)
      · cases h
        rfl
  · intro envs t h
    unfold travisInit at h
    split at h
    · exact absurd h (by simp)
    · cases h
      rfl
  · intro envs v w
    rw [buildkiteInit_isOk_eq, buildkiteInit_isOk_eq, buildkiteEnvErrors_pr,
      buildkiteEnvErrors_pr,
      envGetD_cons_ne "BUILDKITE_PULL_REQUEST" v "BUILDKITE_REPO" envs (by decide),
      envGetD_cons_ne "BUILDKITE_PULL_REQUEST" w "BUILDKITE_REPO" envs (by decide)]
  · intro envs v w
    rw [travisInit_isOk_eq, travisInit_isOk_eq, travisEnvErrors_pr, travisEnvErrors_pr]

/-- Witness for C8: `BUILDKITE_PULL_REQUEST="false"` leaves the number
field at zero (and `Init` succeeds); `TRAVIS_PULL_REQUEST="42"` yields
42. -/
theorem pull_request_number_parsing_witness :
    bkFalsePrData.buildkitePullRequestNumber = 0 ∧
    travisPrData.travisPullRequestNumber = 42 := by
  constructor
  · have h := pull_request_number_parsing.1 bkFalsePrEnv bkFalsePrData (by decide)
    exact h.trans (by decide)
  · have h := pull_request_number_parsing.2.1 travisPrEnv travisPrData (by decide)
    exact h.trans (by decide)

/-- C9: `MarshalYAML` is exactly the concatenation of the serialized
universal block and the serialized provider block; any universal field
marked `omitempty` whose value is empty/zero is omitted entirely
(no key emitted), in particular `:quota_id` when the quota ID is empty and
`:tags` when the tag list is empty; and tags `["tag1", "tag2"]` are
emitted as two list entries in document order. -/
theorem marshal_structure :
    (∀ m : Metadata, MarshalYAML m =
      yamlMarshal (metadataYamlFields m) ++
        yamlMarshal (providerYamlFields m.providerData)) ∧
    (∀ (m : Metadata) (f : YamlField), f ∈ metadataYamlFields m →
      f.omitempty = true → f.value.isZero = true →
      f.key ∉ emittedKeys (metadataYamlFields m)) ∧
    (∀ m : Metadata, m.quotaID = "" →
      ":quota_id" ∉ emittedKeys (metadataYamlFields m)) ∧
    (∀ m : Metadata, m.tags = [] →
      ":tags" ∉ emittedKeys (metadataYamlFields m)) ∧
    (∀ m : Metadata, m.tags = ["tag1", "tag2"] →
      (⟨":tags", .strList m.tags, true⟩ : YamlField) ∈
        (metadataYamlFields m).filter emitYamlField ∧
      renderYamlField ⟨":tags", .strList m.tags, true⟩ =
        ":tags:\n    - tag1\n    - tag2\n") := by
  refine ⟨fun m => rfl, ?_, ?_, ?_, ?_⟩
  · intro m f hf ho hz
    exact key_not_emitted hf ho hz (metadata_keys_nodup m)
  · intro m h
    have hmem : (⟨":quota_id", .str m.quotaID, true⟩ : YamlField) ∈
        metadataYamlFields m := by
      simp [metadataYamlFields]
    exact key_not_emitted hmem rfl (by simp [YamlValue.isZero, h])
      (metadata_keys_nodup m)
  · intro m h
    have hmem : (⟨":tags", .strList m.tags, true⟩ : YamlField) ∈
        metadataYamlFields m := by
      simp [metadataYamlFields]
    exact key_not_emitted hmem rfl (by simp [YamlValue.isZero, h])
      (metadata_keys_nodup m)
  · intro m h
    constructor
    · rw [List.mem_filter]
      refine ⟨by simp [metadataYamlFields], ?_⟩
      simp [emitYamlField, YamlValue.isZero, h]
    · rw [h]
      rfl

/-- Witness for C9: on the tagged fixture (tags `["tag1", "tag2"]`, empty
quota ID), the tags field is emitted as two entries in order and the
`:quota_id` key is absent. -/
theorem marshal_structure_witness :
    renderYamlField ⟨":tags", .strList tagsMetadata.tags, true⟩ =
      ":tags:\n    - tag1\n    - tag2\n" ∧
    ":quota_id" ∉ emittedKeys (metadataYamlFields tagsMetadata) := by
  constructor
  · exact (marshal_structure.2.2.2.2 tagsMetadata (by decide)).2
  · exact marshal_structure.2.2.1 tagsMetadata (by decide)

end BuildPulse
